import Mathlib

/-!
Verification development for the dual-model-dynamic-fuser runtime substrate.

This file gives a shallow embedding, in Lean 4, of the parts of
src/sovl_system/sovl_config.py, src/sovl_system/sovl_curiosity.py and
src/sovl_system/sovl_temperament.py that the claims concern, and proves or
refutes each claim against that embedding.

Modelling conventions:
- Python/JSON values are the inductive `Value`; Python dicts are association
  lists in insertion order (matching CPython dict semantics for iteration,
  `setdefault`, and item assignment).
- Python floats are modelled exactly: configuration values as the exact
  decimal type `Dec` (JSON numbers are decimal literals), scoring and
  pressure arithmetic as rationals.
- A Python exception inside a method is modelled explicitly: functions that
  can raise return a `Bool` success flag or an `Except`, and a raising path
  carries the partially mutated state exactly as far as the source mutated it
  before raising.
- External effects are oracle parameters: file save success is a `Bool`,
  the SHA-256 based change hash is an abstract function `hashFn`, cosine
  similarity between opaque embeddings is a supplied function, and random
  noise is a supplied rational.
- Logging calls are modelled as appended tags where a claim mentions logging,
  and dropped otherwise.
-/

namespace Spec2Proof

/-- An exact decimal number: `mant / 10 ^ exp`, not necessarily reduced. JSON
numbers are decimal literals, so this represents every float appearing in a
config file or in DEFAULT_SCHEMA exactly; keeping it unnormalized lets the
kernel evaluate comparisons with plain integer arithmetic. -/
structure Dec where
  mant : Int
  exp : Nat

/-- Build a decimal `m / 10 ^ e`. -/
def dec (m : Int) (e : Nat) : Dec := ⟨m, e⟩

/-- The rational a `Dec` denotes. -/
def Dec.toRat (d : Dec) : ℚ := (d.mant : ℚ) / (10 : ℚ) ^ d.exp

/-- Comparison by cross-multiplication with the (positive) denominators. -/
def Dec.ble (a b : Dec) : Bool :=
  decide (a.mant * (10 : Int) ^ b.exp ≤ b.mant * (10 : Int) ^ a.exp)

/-- The decimal comparison agrees with the rational order, so `Dec.ble` is a
faithful model of the Python float comparison on exact decimals. -/
theorem Dec.ble_iff_toRat_le (a b : Dec) : a.ble b = true ↔ a.toRat ≤ b.toRat := by
  have h10 : (0 : ℚ) < (10 : ℚ) ^ a.exp := by positivity
  have h10b : (0 : ℚ) < (10 : ℚ) ^ b.exp := by positivity
  constructor
  · intro h
    have hle : a.mant * (10 : Int) ^ b.exp ≤ b.mant * (10 : Int) ^ a.exp := by
      simpa [Dec.ble] using h
    have hq : (a.mant : ℚ) * (10 : ℚ) ^ b.exp ≤ (b.mant : ℚ) * (10 : ℚ) ^ a.exp := by
      exact_mod_cast hle
    unfold Dec.toRat
    rw [div_le_div_iff₀ h10 h10b]
    linarith
  · intro h
    have hq : (a.mant : ℚ) * (10 : ℚ) ^ b.exp ≤ (b.mant : ℚ) * (10 : ℚ) ^ a.exp := by
      have := (div_le_div_iff₀ h10 h10b).mp h
      linarith
    have hle : a.mant * (10 : Int) ^ b.exp ≤ b.mant * (10 : Int) ^ a.exp := by
      exact_mod_cast hq
    simpa [Dec.ble] using hle

/-- Shallow embedding of a Python/JSON value as produced by json.load and
manipulated by sovl_config.py. Dicts are association lists in insertion
order. -/
inductive Value where
  | null : Value
  | bool (b : Bool) : Value
  | int (n : Int) : Value
  | float (d : Dec) : Value
  | str (s : String) : Value
  | list (xs : List Value) : Value
  | dict (xs : List (String × Value)) : Value

/-- Lookup in an association list (Python `d.get(k)` / `k in d`). -/
def lookupKey {β : Type} : List (String × β) → String → Option β
  | [], _ => none
  | (k, v) :: rest, key => if k = key then some v else lookupKey rest key

/-- Insertion into an association list with Python dict semantics: replace in
place if the key exists, append at the end otherwise. -/
def insertKey {β : Type} : List (String × β) → String → β → List (String × β)
  | [], key, v => [(key, v)]
  | (k, w) :: rest, key, v =>
    if k = key then (k, v) :: rest else (k, w) :: insertKey rest key v

/-- Helper for `splitDot`: accumulates the current segment in reverse. -/
def splitDotAux : List Char → List Char → List String
  | [], acc => [String.mk acc.reverse]
  | c :: rest, acc =>
    if c = '.' then String.mk acc.reverse :: splitDotAux rest []
    else splitDotAux rest (c :: acc)

/-- Python `key.split(".")`. -/
def splitDot (s : String) : List String := splitDotAux s.data []

/-- Whether the key contains a dot; `key.split(".", 1)` unpacks into two names
exactly when this holds, and raises ValueError otherwise. -/
def hasDot (s : String) : Bool := s.data.any (fun c => c = '.')

/-- The declared type of a schema field (the `type` argument of ConfigSchema).
Only these five occur in DEFAULT_SCHEMA. -/
inductive PyType where
  | str | int | float | bool | list

/-- Python `isinstance(value, schema.type)`. A Python bool is a subclass of
int, so a bool value is an instance of both bool and int; an int is not an
instance of float. -/
def isInstOf : Value → PyType → Bool
  | .bool _, .bool => true
  | .bool _, .int => true
  | .int _, .int => true
  | .float _, .float => true
  | .str _, .str => true
  | .list _, .list => true
  | _, _ => false

/-- Numeric content of a value for range comparison (only reached after the
isinstance check passed for an int or float schema). -/
def toDecNum : Value → Option Dec
  | .bool b => some (if b then dec 1 0 else dec 0 0)
  | .int n => some (dec n 0)
  | .float d => some d
  | _ => none

/-- The validator callables stored in DEFAULT_SCHEMA, as a closed variant.
Each constructor mirrors one lambda shape from sovl_config.py. -/
inductive PValidator where
  /-- lambda x: x in opts (a membership test against a list of strings). -/
  | strIn (opts : List String)
  /-- lambda x: all(isinstance(i, int) for i in x). -/
  | allInt
  /-- lambda x: all(isinstance(i, str) for i in x). -/
  | allStr
  /-- lambda x: x is None or all(isinstance(i, int) for i in x). -/
  | noneOrAllInt
  /-- lambda x: x is None or x in opts. -/
  | noneOrStrIn (opts : List String)
  /-- lambda x: bool(re.match(pattern, x)) for the save-path pattern
  consisting of one or more characters among letters, digits, underscore,
  slash, dot and hyphen. -/
  | pathChars

/-- Whether a list element counts as an int for the element-type lambdas
(bools are ints in Python). -/
def elemIsInt : Value → Bool
  | .int _ => true
  | .bool _ => true
  | _ => false

/-- Whether a list element is a str. -/
def elemIsStr : Value → Bool
  | .str _ => true
  | _ => false

/-- A character allowed by the pattern used for controls_config.save_path_prefix:
letters, digits, underscore, slash, dot, hyphen. -/
def isPathChar (c : Char) : Bool :=
  c.isAlpha || c.isDigit || c = '_' || c = '/' || c = '.' || c = '-'

/-- Evaluate a stored validator callable on a value, mirroring the Python
lambdas (equality against strings is false for non-string values). -/
def runValidator : PValidator → Value → Bool
  | .strIn opts, .str s => opts.contains s
  | .strIn _, _ => false
  | .allInt, .list xs => xs.all elemIsInt
  | .allInt, _ => false
  | .allStr, .list xs => xs.all elemIsStr
  | .allStr, _ => false
  | .noneOrAllInt, .null => true
  | .noneOrAllInt, .list xs => xs.all elemIsInt
  | .noneOrAllInt, _ => false
  | .noneOrStrIn _, .null => true
  | .noneOrStrIn opts, .str s => opts.contains s
  | .noneOrStrIn _, _ => false
  | .pathChars, .str s => decide (s.data ≠ []) && s.data.all isPathChar
  | .pathChars, _ => false

/-- One ConfigSchema entry: dotted field name, declared type, default,
optional validator, optional inclusive range, required and nullable flags. -/
structure PSchema where
  field : String
  type : PyType
  default : Value
  validator : Option PValidator := none
  range : Option (Dec × Dec) := none
  required : Bool := false
  nullable : Bool := false

/-- The range test `schema.range[0] <= value <= schema.range[1]`; the value
has already passed the isinstance check, so it is numeric whenever a range is
declared in DEFAULT_SCHEMA. -/
def inRangeOf (lo hi : Dec) (v : Value) : Bool :=
  match toDecNum v with
  | some q => lo.ble q && q.ble hi
  | none => false

/-- Whether a value passes the checks of _SchemaValidator.validate
(sovl_config.py lines 47-88) for a known key, in source order: a null value
passes only if the field is not required and is nullable; a non-null value
must pass the isinstance check, then the validator callable if present, then
the inclusive range if present. -/
def validateOk (sch : PSchema) (v : Value) : Bool :=
  match v with
  | .null => !sch.required && sch.nullable
  | v =>
    isInstOf v sch.type
    && (match sch.validator with
        | some f => runValidator f v
        | none => true)
    && (match sch.range with
        | some (lo, hi) => inRangeOf lo hi v
        | none => true)

/-- The (ok, coerced) pair returned by _SchemaValidator.validate for a known
key: the value itself when it passes (including None for an accepted nullable
field), the schema default on every failure path. -/
def validateOne (sch : PSchema) (v : Value) : Bool × Value :=
  if validateOk sch v then (true, v) else (false, sch.default)

/-- _SchemaValidator.validate (sovl_config.py lines 36-88): unknown keys give
(False, None); known keys dispatch to the schema body. -/
def validate (schemas : List (String × PSchema)) (key : String) (v : Value) :
    Bool × Value :=
  match lookupKey schemas key with
  | none => (false, .null)
  | some sch => validateOne sch v

/-- _SchemaValidator.register: dict.update keyed by field name. -/
def registerSchemas (m : List (String × PSchema)) (ss : List PSchema) :
    List (String × PSchema) :=
  ss.foldl (fun acc s => insertKey acc s.field s) m

def schema_core_config : List PSchema := [
  { field := "core_config.base_model_name", type := .str, default := .str "gpt2", required := true },
  { field := "core_config.scaffold_model_name", type := .str, default := .str "gpt2", required := true },
  { field := "core_config.cross_attn_layers", type := .list, default := .list [.int 5, .int 7], validator := some .allInt },
  { field := "core_config.use_dynamic_layers", type := .bool, default := .bool false },
  { field := "core_config.layer_selection_mode", type := .str, default := .str "balanced", validator := some (.strIn ["balanced", "random", "fixed"]) },
  { field := "core_config.custom_layers", type := .list, default := .null, validator := some .noneOrAllInt, nullable := true },
  { field := "core_config.valid_split_ratio", type := .float, default := .float (dec 2 1), range := some (dec 0 0, dec 1 0) },
  { field := "core_config.random_seed", type := .int, default := .int 42, range := some (dec 0 0, dec 4294967296 0) },
  { field := "core_config.quantization", type := .str, default := .str "fp16", validator := some (.strIn ["fp16", "int8", "fp32"]) },
  { field := "core_config.hidden_size", type := .int, default := .int 768, range := some (dec 128 0, dec 4096 0) }]

def schema_lora_config : List PSchema := [
  { field := "lora_config.lora_rank", type := .int, default := .int 8, range := some (dec 1 0, dec 64 0) },
  { field := "lora_config.lora_alpha", type := .int, default := .int 16, range := some (dec 1 0, dec 128 0) },
  { field := "lora_config.lora_dropout", type := .float, default := .float (dec 1 1), range := some (dec 0 0, dec 5 1) },
  { field := "lora_config.lora_target_modules", type := .list, default := .list [.str "c_attn", .str "c_proj", .str "c_fc"], validator := some .allStr }]

def schema_training_config : List PSchema := [
  { field := "training_config.learning_rate", type := .float, default := .float (dec 3 4), range := some (dec 0 0, dec 1 2) },
  { field := "training_config.train_epochs", type := .int, default := .int 3, range := some (dec 1 0, dec 10 0) },
  { field := "training_config.batch_size", type := .int, default := .int 1, range := some (dec 1 0, dec 64 0) },
  { field := "training_config.max_seq_length", type := .int, default := .int 128, range := some (dec 64 0, dec 2048 0) },
  { field := "training_config.sigmoid_scale", type := .float, default := .float (dec 5 1), range := some (dec 1 1, dec 10 0) },
  { field := "training_config.sigmoid_shift", type := .float, default := .float (dec 5 0), range := some (dec 0 0, dec 10 0) },
  { field := "training_config.lifecycle_capacity_factor", type := .float, default := .float (dec 1 2), range := some (dec 0 0, dec 1 0) },
  { field := "training_config.lifecycle_curve", type := .str, default := .str "sigmoid_linear", validator := some (.strIn ["sigmoid_linear", "linear", "exponential"]) },
  { field := "training_config.accumulation_steps", type := .int, default := .int 4, range := some (dec 1 0, dec 16 0) },
  { field := "training_config.exposure_gain_eager", type := .int, default := .int 3, range := some (dec 1 0, dec 10 0) },
  { field := "training_config.exposure_gain_default", type := .int, default := .int 2, range := some (dec 1 0, dec 10 0) },
  { field := "training_config.max_patience", type := .int, default := .int 2, range := some (dec 1 0, dec 5 0) },
  { field := "training_config.sleep_max_steps", type := .int, default := .int 100, range := some (dec 10 0, dec 1000 0) },
  { field := "training_config.lora_capacity", type := .int, default := .int 0, range := some (dec 0 0, dec 1000 0) },
  { field := "training_config.dry_run", type := .bool, default := .bool false },
  { field := "training_config.dry_run_params.max_samples", type := .int, default := .int 2, range := some (dec 1 0, dec 100 0) },
  { field := "training_config.dry_run_params.max_length", type := .int, default := .int 128, range := some (dec 64 0, dec 2048 0) },
  { field := "training_config.dry_run_params.validate_architecture", type := .bool, default := .bool true },
  { field := "training_config.dry_run_params.skip_training", type := .bool, default := .bool true },
  { field := "training_config.weight_decay", type := .float, default := .float (dec 1 2), range := some (dec 0 0, dec 1 1) },
  { field := "training_config.total_steps", type := .int, default := .int 1000, range := some (dec 100 0, dec 10000 0) },
  { field := "training_config.max_grad_norm", type := .float, default := .float (dec 1 0), range := some (dec 1 1, dec 10 0) },
  { field := "training_config.use_amp", type := .bool, default := .bool true },
  { field := "training_config.checkpoint_interval", type := .int, default := .int 1000, range := some (dec 100 0, dec 10000 0) },
  { field := "training_config.scheduler_type", type := .str, default := .str "linear", validator := some (.strIn ["linear", "cosine", "constant"]) },
  { field := "training_config.cosine_min_lr", type := .float, default := .float (dec 1 6), range := some (dec 1 7, dec 1 3) },
  { field := "training_config.warmup_ratio", type := .float, default := .float (dec 1 1), range := some (dec 0 0, dec 5 1) },
  { field := "training_config.metrics_to_track", type := .list, default := .list [.str "loss", .str "accuracy", .str "confidence"], validator := some .allStr },
  { field := "training_config.repetition_n", type := .int, default := .int 3, range := some (dec 1 0, dec 10 0) },
  { field := "training_config.checkpoint_path", type := .str, default := .str "checkpoints/sovl_trainer" },
  { field := "training_config.validate_every_n_steps", type := .int, default := .int 100, range := some (dec 10 0, dec 1000 0) }]

def schema_curiosity_config : List PSchema := [
  { field := "curiosity_config.queue_maxlen", type := .int, default := .int 10, range := some (dec 1 0, dec 50 0) },
  { field := "curiosity_config.novelty_history_maxlen", type := .int, default := .int 20, range := some (dec 5 0, dec 100 0) },
  { field := "curiosity_config.decay_rate", type := .float, default := .float (dec 9 1), range := some (dec 0 0, dec 1 0) },
  { field := "curiosity_config.attention_weight", type := .float, default := .float (dec 5 1), range := some (dec 0 0, dec 1 0) },
  { field := "curiosity_config.question_timeout", type := .float, default := .float (dec 3600 0), range := some (dec 60 0, dec 86400 0) },
  { field := "curiosity_config.novelty_threshold_spontaneous", type := .float, default := .float (dec 9 1), range := some (dec 0 0, dec 1 0) },
  { field := "curiosity_config.novelty_threshold_response", type := .float, default := .float (dec 8 1), range := some (dec 0 0, dec 1 0) },
  { field := "curiosity_config.pressure_threshold", type := .float, default := .float (dec 7 1), range := some (dec 0 0, dec 1 0) },
  { field := "curiosity_config.pressure_drop", type := .float, default := .float (dec 3 1), range := some (dec 0 0, dec 1 0) },
  { field := "curiosity_config.silence_threshold", type := .float, default := .float (dec 20 0), range := some (dec 0 0, dec 3600 0) },
  { field := "curiosity_config.question_cooldown", type := .float, default := .float (dec 60 0), range := some (dec 0 0, dec 3600 0) },
  { field := "curiosity_config.weight_ignorance", type := .float, default := .float (dec 7 1), range := some (dec 0 0, dec 1 0) },
  { field := "curiosity_config.weight_novelty", type := .float, default := .float (dec 3 1), range := some (dec 0 0, dec 1 0) },
  { field := "curiosity_config.max_new_tokens", type := .int, default := .int 8, range := some (dec 1 0, dec 100 0) },
  { field := "curiosity_config.base_temperature", type := .float, default := .float (dec 11 1), range := some (dec 1 1, dec 2 0) },
  { field := "curiosity_config.temperament_influence", type := .float, default := .float (dec 4 1), range := some (dec 0 0, dec 1 0) },
  { field := "curiosity_config.top_k", type := .int, default := .int 30, range := some (dec 1 0, dec 100 0) },
  { field := "curiosity_config.enable_curiosity", type := .bool, default := .bool true }]

def schema_cross_attn_config : List PSchema := [
  { field := "cross_attn_config.memory_weight", type := .float, default := .float (dec 5 1), range := some (dec 0 0, dec 1 0) },
  { field := "cross_attn_config.dynamic_scale", type := .float, default := .float (dec 3 1), range := some (dec 0 0, dec 1 0) },
  { field := "cross_attn_config.enable_dynamic", type := .bool, default := .bool true },
  { field := "cross_attn_config.enable_memory", type := .bool, default := .bool true }]

def schema_controls_config_0 : List PSchema := [
  { field := "controls_config.sleep_conf_threshold", type := .float, default := .float (dec 7 1), range := some (dec 0 0, dec 1 0) },
  { field := "controls_config.sleep_time_factor", type := .float, default := .float (dec 1 0), range := some (dec 1 1, dec 10 0) },
  { field := "controls_config.sleep_log_min", type := .int, default := .int 10, range := some (dec 1 0, dec 100 0) },
  { field := "controls_config.dream_swing_var", type := .float, default := .float (dec 1 1), range := some (dec 0 0, dec 5 1) },
  { field := "controls_config.dream_lifecycle_delta", type := .float, default := .float (dec 1 1), range := some (dec 0 0, dec 5 1) },
  { field := "controls_config.dream_temperament_on", type := .bool, default := .bool true },
  { field := "controls_config.dream_noise_scale", type := .float, default := .float (dec 5 2), range := some (dec 0 0, dec 1 1) },
  { field := "controls_config.temp_eager_threshold", type := .float, default := .float (dec 8 1), range := some (dec 7 1, dec 9 1) },
  { field := "controls_config.temp_sluggish_threshold", type := .float, default := .float (dec 6 1), range := some (dec 4 1, dec 6 1) },
  { field := "controls_config.temp_mood_influence", type := .float, default := .float (dec 0 0), range := some (dec 0 0, dec 1 0) },
  { field := "controls_config.scaffold_weight_cap", type := .float, default := .float (dec 9 1), range := some (dec 0 0, dec 1 0) },
  { field := "controls_config.base_temperature", type := .float, default := .float (dec 7 1), range := some (dec 1 1, dec 2 0) },
  { field := "controls_config.save_path_prefix", type := .str, default := .str "state", validator := some .pathChars },
  { field := "controls_config.dream_memory_weight", type := .float, default := .float (dec 1 1), range := some (dec 0 0, dec 1 0) },
  { field := "controls_config.dream_memory_maxlen", type := .int, default := .int 10, range := some (dec 1 0, dec 50 0) },
  { field := "controls_config.dream_prompt_weight", type := .float, default := .float (dec 5 1), range := some (dec 0 0, dec 1 0) },
  { field := "controls_config.dream_novelty_boost", type := .float, default := .float (dec 3 2), range := some (dec 0 0, dec 1 1) },
  { field := "controls_config.temp_curiosity_boost", type := .float, default := .float (dec 5 1), range := some (dec 0 0, dec 5 1) },
  { field := "controls_config.temp_restless_drop", type := .float, default := .float (dec 1 1), range := some (dec 0 0, dec 5 1) },
  { field := "controls_config.temp_melancholy_noise", type := .float, default := .float (dec 2 2), range := some (dec 0 0, dec 5 2) },
  { field := "controls_config.conf_feedback_strength", type := .float, default := .float (dec 5 1), range := some (dec 0 0, dec 1 0) },
  { field := "controls_config.temp_smoothing_factor", type := .float, default := .float (dec 0 0), range := some (dec 0 0, dec 1 0) },
  { field := "controls_config.dream_memory_decay", type := .float, default := .float (dec 95 2), range := some (dec 0 0, dec 1 0) },
  { field := "controls_config.dream_prune_threshold", type := .float, default := .float (dec 1 1), range := some (dec 0 0, dec 5 1) },
  { field := "controls_config.use_scaffold_memory", type := .bool, default := .bool true },
  { field := "controls_config.use_token_map_memory", type := .bool, default := .bool true }]

def schema_controls_config_1 : List PSchema := [
  { field := "controls_config.memory_decay_rate", type := .float, default := .float (dec 95 2), range := some (dec 0 0, dec 1 0) },
  { field := "controls_config.dynamic_cross_attn_mode", type := .str, default := .null, validator := some (.noneOrStrIn ["adaptive", "fixed"]), nullable := true },
  { field := "controls_config.has_woken", type := .bool, default := .bool false },
  { field := "controls_config.is_sleeping", type := .bool, default := .bool false },
  { field := "controls_config.confidence_history_maxlen", type := .int, default := .int 5, range := some (dec 3 0, dec 10 0) },
  { field := "controls_config.temperament_history_maxlen", type := .int, default := .int 5, range := some (dec 3 0, dec 10 0) },
  { field := "controls_config.conversation_history_maxlen", type := .int, default := .int 10, range := some (dec 5 0, dec 50 0) },
  { field := "controls_config.max_seen_prompts", type := .int, default := .int 1000, range := some (dec 100 0, dec 10000 0) },
  { field := "controls_config.prompt_timeout", type := .float, default := .float (dec 86400 0), range := some (dec 3600 0, dec 604800 0) },
  { field := "controls_config.temperament_decay_rate", type := .float, default := .float (dec 95 2), range := some (dec 0 0, dec 1 0) },
  { field := "controls_config.scaffold_unk_id", type := .int, default := .int 0, range := some (dec 0 0, dec 100000 0) },
  { field := "controls_config.enable_dreaming", type := .bool, default := .bool true },
  { field := "controls_config.enable_temperament", type := .bool, default := .bool true },
  { field := "controls_config.enable_confidence_tracking", type := .bool, default := .bool true },
  { field := "controls_config.enable_gestation", type := .bool, default := .bool true },
  { field := "controls_config.enable_sleep_training", type := .bool, default := .bool true },
  { field := "controls_config.enable_cross_attention", type := .bool, default := .bool true },
  { field := "controls_config.enable_dynamic_cross_attention", type := .bool, default := .bool true },
  { field := "controls_config.enable_lora_adapters", type := .bool, default := .bool true },
  { field := "controls_config.enable_repetition_check", type := .bool, default := .bool true },
  { field := "controls_config.enable_prompt_driven_dreams", type := .bool, default := .bool true },
  { field := "controls_config.enable_lifecycle_weighting", type := .bool, default := .bool true },
  { field := "controls_config.memory_threshold", type := .float, default := .float (dec 85 2), range := some (dec 0 0, dec 1 0) },
  { field := "controls_config.enable_error_listening", type := .bool, default := .bool true },
  { field := "controls_config.enable_scaffold", type := .bool, default := .bool true },
  { field := "controls_config.injection_strategy", type := .str, default := .str "sequential", validator := some (.strIn ["sequential", "parallel", "replace"]) }]

def schema_logging_config : List PSchema := [
  { field := "logging_config.log_dir", type := .str, default := .str "logs" },
  { field := "logging_config.log_file", type := .str, default := .str "sovl_logs.jsonl" },
  { field := "logging_config.debug_log_file", type := .str, default := .str "sovl_debug.log" },
  { field := "logging_config.max_size_mb", type := .int, default := .int 10, range := some (dec 0 0, dec 100 0) },
  { field := "logging_config.compress_old", type := .bool, default := .bool false },
  { field := "logging_config.max_in_memory_logs", type := .int, default := .int 1000, range := some (dec 100 0, dec 10000 0) },
  { field := "logging_config.schema_version", type := .str, default := .str "1.1" }]

/-- ConfigManager.DEFAULT_SCHEMA (sovl_config.py lines 220-355), transcribed
entry by entry and split per section to keep elaboration tractable. Floats are
exact rationals; 2**32 is written out. -/
def defaultSchema : List PSchema :=
  schema_core_config ++ schema_lora_config ++ schema_training_config ++ schema_curiosity_config ++ schema_cross_attn_config ++ schema_controls_config_0 ++ schema_controls_config_1 ++ schema_logging_config

/-- The configuration store (_ConfigStore): the flat config as loaded from
file, the structured mirror, and the read cache keyed by dotted name. -/
structure Store where
  flat : Value
  structured : Value
  cache : List (String × Value)

/-- The initial structured_config skeleton built in the _ConfigStore
constructor: the seven sections, with the nested dry_run_params dict. -/
def initialStructured : Value :=
  .dict [("core_config", .dict []),
         ("lora_config", .dict []),
         ("training_config", .dict [("dry_run_params", .dict [])]),
         ("curiosity_config", .dict []),
         ("cross_attn_config", .dict []),
         ("controls_config", .dict []),
         ("logging_config", .dict [])]

/-- The key-descent loop of _ConfigStore.get_value: walk the nested dicts,
substituting the default when a segment is missing, and bailing out with the
default when a non-dict is reached before the segments run out. -/
def pyGetDescend : Value → List String → Value → Value
  | v, [], _ => v
  | .dict m, k :: ks, dflt => pyGetDescend ((lookupKey m k).getD dflt) ks dflt
  | _, _ :: _, dflt => dflt

/-- The final coalescing in get_value and ConfigManager.get: an empty dict or
None resolves to the supplied default. -/
def coalesce (r dflt : Value) : Value :=
  match r with
  | .null => dflt
  | .dict [] => dflt
  | v => v

/-- _ConfigStore.get_value: cache hit first (returned without coalescing),
else descend the flat config and coalesce. -/
def getValue (st : Store) (key : String) (dflt : Value) : Value :=
  match lookupKey st.cache key with
  | some v => v
  | none => coalesce (pyGetDescend st.flat (splitDot key) dflt) dflt

/-- The flat-config effect of `flat_config.setdefault(sec, new dict)[fld] = v`
on the flat value alone. The Bool is false when the Python statement would
raise (the flat config has no setdefault, or the existing section value does
not support item assignment), in which case the value is unchanged. -/
def flatWrite2 (fl : Value) (sec fld : String) (v : Value) : Value × Bool :=
  match fl with
  | .dict d =>
    match lookupKey d sec with
    | none => (.dict (insertKey d sec (.dict [(fld, v)])), true)
    | some (.dict e) => (.dict (insertKey d sec (.dict (insertKey e fld v))), true)
    | some _ => (fl, false)
  | _ => (fl, false)

/-- The structured-config effect of `structured_config[sec][fld] = v`; false
models the KeyError for a missing section or the TypeError for a non-dict
section value. -/
def structWrite2 (sv : Value) (sec fld : String) (v : Value) : Value × Bool :=
  match sv with
  | .dict sd =>
    match lookupKey sd sec with
    | some (.dict e) => (.dict (insertKey sd sec (.dict (insertKey e fld v))), true)
    | _ => (sv, false)
  | _ => (sv, false)

/-- The flat-config effect of
`flat_config.setdefault(s1, new).setdefault(s2, new)[fld] = v`. -/
def flatWrite3 (fl : Value) (s1 s2 fld : String) (v : Value) : Value × Bool :=
  match fl with
  | .dict d =>
    match lookupKey d s1 with
    | none => (.dict (insertKey d s1 (.dict [(s2, .dict [(fld, v)])])), true)
    | some (.dict e) =>
      match lookupKey e s2 with
      | none => (.dict (insertKey d s1 (.dict (insertKey e s2 (.dict [(fld, v)])))), true)
      | some (.dict f) => (.dict (insertKey d s1 (.dict (insertKey e s2 (.dict (insertKey f fld v))))), true)
      | some _ => (fl, false)
    | some _ => (fl, false)
  | _ => (fl, false)

/-- The structured-config effect of `structured_config[s1][s2][fld] = v`. -/
def structWrite3 (sv : Value) (s1 s2 fld : String) (v : Value) : Value × Bool :=
  match sv with
  | .dict sd =>
    match lookupKey sd s1 with
    | some (.dict e) =>
      match lookupKey e s2 with
      | some (.dict f) => (.dict (insertKey sd s1 (.dict (insertKey e s2 (.dict (insertKey f fld v))))), true)
      | _ => (sv, false)
    | _ => (sv, false)
  | _ => (sv, false)

/-- Lift the 2-segment flat write to the store. -/
def flatSet2 (st : Store) (sec fld : String) (v : Value) : Store × Bool :=
  ({ st with flat := (flatWrite2 st.flat sec fld v).1 },
   (flatWrite2 st.flat sec fld v).2)

/-- Lift the 2-segment structured write to the store. -/
def structSet2 (st : Store) (sec fld : String) (v : Value) : Store × Bool :=
  ({ st with structured := (structWrite2 st.structured sec fld v).1 },
   (structWrite2 st.structured sec fld v).2)

/-- Lift the 3-segment flat write to the store. -/
def flatSet3 (st : Store) (s1 s2 fld : String) (v : Value) : Store × Bool :=
  ({ st with flat := (flatWrite3 st.flat s1 s2 fld v).1 },
   (flatWrite3 st.flat s1 s2 fld v).2)

/-- Lift the 3-segment structured write to the store. -/
def structSet3 (st : Store) (s1 s2 fld : String) (v : Value) : Store × Bool :=
  ({ st with structured := (structWrite3 st.structured s1 s2 fld v).1 },
   (structWrite3 st.structured s1 s2 fld v).2)

/-- The flat-then-structured assignment pair of set_value for a 2-segment
key: the structured line only runs if the flat line did not raise. -/
def setFlatStruct2 (st : Store) (sec fld : String) (v : Value) : Store × Bool :=
  if (flatSet2 st sec fld v).2 = false then ((flatSet2 st sec fld v).1, false)
  else structSet2 (flatSet2 st sec fld v).1 sec fld v

/-- The flat-then-structured assignment pair of set_value for the 3-segment
shape. -/
def setFlatStruct3 (st : Store) (s1 s2 fld : String) (v : Value) : Store × Bool :=
  if (flatSet3 st s1 s2 fld v).2 = false then ((flatSet3 st s1 s2 fld v).1, false)
  else structSet3 (flatSet3 st s1 s2 fld v).1 s1 s2 fld v

/-- _ConfigStore.set_value (sovl_config.py lines 106-117): the cache entry is
written first; then the flat and structured trees are written for 2-segment
keys and for the one known 3-segment shape; any other shape silently writes
only the cache. The Bool is false when the Python body raises, and the store
carries exactly the mutations performed before the raise. -/
def setValue (st : Store) (key : String) (v : Value) : Store × Bool :=
  match splitDot key with
  | [sec, fld] =>
    setFlatStruct2 { st with cache := insertKey st.cache key v } sec fld v
  | [s1, s2, fld] =>
    if s1 = "training_config" ∧ s2 = "dry_run_params" then
      setFlatStruct3 { st with cache := insertKey st.cache key v } s1 s2 fld v
    else ({ st with cache := insertKey st.cache key v }, true)
  | _ => ({ st with cache := insertKey st.cache key v }, true)

/-- Run a per-schema step over a schema list, stopping at the first step that
raises (Python for-loop semantics under an exception). -/
def foldSteps (f : Store → PSchema → Store × Bool) :
    Store → List PSchema → Store × Bool
  | st, [] => (st, true)
  | st, sch :: rest =>
    if (f st sch).2 = false then ((f st sch).1, false)
    else foldSteps f (f st sch).1 rest

/-- One iteration of _ConfigStore.rebuild_structured. -/
def rebuildStep (st : Store) (sch : PSchema) : Store × Bool :=
  match splitDot sch.field with
  | [sec, fld] => structSet2 st sec fld (getValue st sch.field sch.default)
  | [s1, s2, fld] =>
    if s1 = "training_config" ∧ s2 = "dry_run_params" then
      structSet3 st s1 s2 fld (getValue st sch.field sch.default)
    else (st, true)
  | _ => (st, true)

/-- _ConfigStore.rebuild_structured over a schema list. -/
def rebuildStructured (st : Store) (defs : List PSchema) : Store × Bool :=
  foldSteps rebuildStep st defs

/-- _ConfigStore.update_cache: the new cache is a dict comprehension read
against the store as it stands (including its previous cache). -/
def updateCache (st : Store) (defs : List PSchema) : Store :=
  { st with cache := defs.map (fun sch => (sch.field, getValue st sch.field sch.default)) }

/-- The validate call made by one iteration of
ConfigManager._validate_and_set_defaults, on the value read back with the
schema default substituted for missing data. -/
def vsdVal (schemas : List (String × PSchema)) (st : Store) (sch : PSchema) :
    Bool × Value :=
  validate schemas sch.field (getValue st sch.field sch.default)

/-- One iteration of ConfigManager._validate_and_set_defaults: read the value
(default-substituting), validate, and on failure write the corrected value
back; none when the write raises. -/
def vsdStep (schemas : List (String × PSchema)) (st : Store) (sch : PSchema) :
    Option Store :=
  if (vsdVal schemas st sch).1 then some st
  else if (setValue st sch.field (vsdVal schemas st sch).2).2 = false then none
  else some (setValue st sch.field (vsdVal schemas st sch).2).1

/-- ConfigManager._validate_and_set_defaults over DEFAULT_SCHEMA. -/
def validateAndSetDefaults (schemas : List (String × PSchema)) :
    Store → List PSchema → Option Store
  | st, [] => some st
  | st, sch :: rest =>
    match vsdStep schemas st sch with
    | some st' => validateAndSetDefaults schemas st' rest
    | none => none

/-- The observable state of a ConfigManager. The change hash is kept abstract:
`hashFn` stands for the composite of sorted JSON serialization and the
16-hex-character SHA-256 abbreviation; theorems that need collision-freeness
take injectivity as a hypothesis. Subscribers are recorded only by whether
their callback raises when invoked. -/
structure CMState (α : Type) where
  schemas : List (String × PSchema)
  store : Store
  frozen : Bool
  lastConfigHash : α
  subscribers : List Bool

/-- ConfigManager construction (constructor plus _initialize_config): load the
file (the caller passes the parsed JSON; a missing or corrupt file loads as an
empty dict), validate and set defaults, rebuild the structured tree, refresh
the cache, compute the hash. none models a constructor-time exception. -/
def initConfigManager {α : Type} (hashFn : Value → α) (file : Value) :
    Option (CMState α) :=
  match validateAndSetDefaults (registerSchemas [] defaultSchema)
      { flat := file, structured := initialStructured, cache := [] }
      defaultSchema with
  | none => none
  | some st1 =>
    if (rebuildStructured st1 defaultSchema).2 = false then none
    else some { schemas := registerSchemas [] defaultSchema, store := updateCache (rebuildStructured st1 defaultSchema).1 defaultSchema, frozen := false, lastConfigHash := hashFn (updateCache (rebuildStructured st1 defaultSchema).1 defaultSchema).flat, subscribers := [] }

/-- ConfigManager.freeze. -/
def freeze {α : Type} (s : CMState α) : CMState α := { s with frozen := true }

/-- ConfigManager.get: store read followed by the empty-or-missing coalescing
to the supplied default. -/
def cmGet {α : Type} (s : CMState α) (key : String) (dflt : Value) : Value :=
  coalesce (getValue s.store key dflt) dflt

/-- ConfigManager.update (sovl_config.py lines 517-560): reject when frozen;
validate; write through set_value; recompute the change hash. A raise inside
set_value is caught by the method-level handler and yields False with the
mutations performed before the raise retained. -/
def update {α : Type} (hashFn : Value → α) (s : CMState α) (key : String)
    (v : Value) : Bool × CMState α :=
  if s.frozen then (false, s)
  else if (validate s.schemas key v).1 = false then (false, s)
  else if (setValue s.store key v).2 = false then
    (false, { s with store := (setValue s.store key v).1 })
  else
    (true, { s with store := ((setValue s.store key v).1), lastConfigHash := hashFn (setValue s.store key v).1.flat })

/-- ConfigManager._notify_subscribers: each callback is invoked inside its own
try/except, so a raising callback is logged and the loop continues. The result
counts (delivered, logged) over the subscriber list; the function is total,
which is exactly the observable content of the per-callback handler. -/
def notifyLoop : List Bool → ℕ × ℕ
  | [] => (0, 0)
  | raises :: rest =>
    let r := notifyLoop rest
    if raises then (r.1, r.2 + 1) else (r.1 + 1, r.2)

/-- The apply loop of update_batch: set_value for each pair in order, stopping
at a raise. -/
def applyAll : Store → List (String × Value) → Store × Bool
  | st, [] => (st, true)
  | st, (k, v) :: rest =>
    let (st', ok) := setValue st k v
    if ok then applyAll st' rest else (st', false)

/-- Whether the flat config object answers .copy() (dicts and lists do;
scalar JSON top levels make the backup line itself raise to the caller). -/
def hasCopyAttr : Value → Bool
  | .dict _ => true
  | .list _ => true
  | _ => false

/-- The state of the flat config after `flat_config = backup` in the rollback
branch. The backup is a SHALLOW copy: existing top-level sections share their
inner dicts with the live config, so restoring the backup keeps all in-place
mutations of pre-existing sections and only drops sections added since the
backup; a non-dict flat was never mutated, so its copy equals the original. -/
def rollbackFlat (origFlat flatNow : Value) : Value :=
  match origFlat, flatNow with
  | .dict d0, .dict dNow => .dict (dNow.filter (fun kv => (d0.map Prod.fst).contains kv.1))
  | _, _ => origFlat

/-- The rollback sequence of the except-clause: restore the (shallow) backup
flat config and rebuild the structured tree over DEFAULT_SCHEMA. -/
def rollbackStore (origFlat : Value) (stNow : Store) : Store × Bool :=
  rebuildStructured { stNow with flat := rollbackFlat origFlat stNow.flat }
    defaultSchema

/-- The except-clause of update_batch: with rollback requested, restore the
(shallow) backup, rebuild the structured tree, refresh the cache and recompute
the hash; otherwise leave the partial mutations in place. A raise inside the
rollback itself propagates to the caller. -/
def exceptPath {α : Type} (hashFn : Value → α) (s : CMState α) (stNow : Store)
    (rollbackOnFailure : Bool) : Except Unit (Bool × CMState α) :=
  if rollbackOnFailure then
    if (rollbackStore s.store.flat stNow).2 = false then .error ()
    else
      .ok (false, { s with
        store := updateCache (rollbackStore s.store.flat stNow).1 defaultSchema,
        lastConfigHash := hashFn
          (updateCache (rollbackStore s.store.flat stNow).1 defaultSchema).flat })
  else .ok (false, { s with store := stNow })

/-- ConfigManager.update_batch (sovl_config.py lines 599-669). Structure
mirrored from the source:
- an empty updates dict returns True at once, before the backup;
- the backup is taken outside the try block, so a flat config without a .copy
  attribute raises to the caller;
- the validation loop is dead code: `validator.validate` returns a 2-tuple,
  which is always truthy, and `section in validator.schemas` is always false
  because the registered keys are full dotted names while `section` is the
  text before the first dot; the only exception the loop can raise is the
  two-name unpacking of key.split for a key without a dot;
- the frozen flag is never consulted;
- after the apply loop, the save; on success subscribers are notified (the
  notification returns nothing and cannot raise, see notifyLoop, so it leaves
  the returned value and the config state untouched) and True is returned
  without recomputing the change hash. -/
def updateBatch {α : Type} (hashFn : Value → α) (s : CMState α)
    (updates : List (String × Value)) (rollbackOnFailure : Bool)
    (saveOk : Bool) : Except Unit (Bool × CMState α) :=
  if updates.isEmpty then .ok (true, s)
  else if hasCopyAttr s.store.flat = false then .error ()
  else if updates.all (fun kv => hasDot kv.1) = false then
    exceptPath hashFn s s.store rollbackOnFailure
  else if (applyAll s.store updates).2 = false then
    exceptPath hashFn s (applyAll s.store updates).1 rollbackOnFailure
  else if saveOk = false then
    exceptPath hashFn s (applyAll s.store updates).1 rollbackOnFailure
  else .ok (true, { s with store := (applyAll s.store updates).1 })

/-! Curiosity scorer, pressure accumulator and temperament system. -/

/-- Curiosity._clamp_score: max(0.0, min(1.0, score)). -/
def clamp01 (q : ℚ) : ℚ := max 0 (min 1 q)

/-- Split a list into consecutive chunks of size bs, by fuel so that the
recursion is structural (the fuel is the list length, which suffices whenever
bs is at least 1, as the adaptive batch bounds guarantee). This models the
Python loop `for i in range(0, len(xs), bs): batch = xs[i:i+bs]`. -/
def chunkGo {γ : Type} : ℕ → ℕ → List γ → List (List γ)
  | _, _, [] => []
  | 0, _, l => [l]
  | f + 1, bs, l => l.take bs :: chunkGo f bs (l.drop bs)

/-- Chunking with the fuel instantiated. -/
def chunkList {γ : Type} (bs : ℕ) (l : List γ) : List (List γ) :=
  chunkGo l.length bs l

/-- similarities.max().item() over one stacked batch: the maximum of the
cosine similarities of the query against each member. The empty case is
unreachable (chunks of a nonempty list are nonempty). -/
def chunkMax {E : Type} (sim : E → ℚ) : List E → ℚ
  | [] => 0
  | e :: es => es.foldl (fun a x => max a (sim x)) (sim e)

/-- The batch loop of Curiosity._compute_novelty_score (sovl_curiosity.py
lines 368-379): track the running maximum, and stop as soon as it reaches the
early-exit threshold. -/
def noveltyFold {E : Type} (sim : E → ℚ) (threshold : ℚ) :
    List (List E) → ℚ → ℚ
  | [], m => m
  | chunk :: rest, m =>
    let m' := max m (chunkMax sim chunk)
    if threshold ≤ m' then m' else noveltyFold sim threshold rest m'

/-- The try-block body of Curiosity._compute_novelty_score as written (lines
365-380): chunk by the adaptive batch size, run the early-exit maximum loop
from 0.0, return clamp(1 - max_similarity, 0, 1). `sim e` stands for the
cosine similarity of the query embedding against memory embedding e. -/
def noveltyBody {E : Type} (sim : E → ℚ) (threshold : ℚ) (bs : ℕ)
    (mem : List E) : ℚ :=
  clamp01 (1 - noveltyFold sim threshold (chunkList bs mem) 0)

/-- Modelled from the source by absence: line 367 of sovl_curiosity.py calls
self._estimate_adaptive_batch_size(), and no method of that name is defined
anywhere in the repository, so the call raises AttributeError. -/
def estimateAdaptiveBatchSize : Except Unit ℕ := .error ()

/-- The try block of Curiosity._compute_novelty_score: the batch size lookup
runs before the loop, so its AttributeError aborts the whole body. -/
def noveltyTry {E : Type} (sim : E → ℚ) (threshold : ℚ) (mem : List E) :
    Except Unit ℚ := do
  let bs ← estimateAdaptiveBatchSize
  pure (noveltyBody sim threshold bs mem)

/-- Curiosity._compute_novelty_score as the code executes (lines 357-383):
the except handler catches the AttributeError and returns 0.0. -/
def computeNoveltyScore {E : Type} (sim : E → ℚ) (threshold : ℚ)
    (mem : List E) : ℚ :=
  match noveltyTry sim threshold mem with
  | .ok v => v
  | .error _ => 0

/-- Curiosity.compute_curiosity (lines 310-338): novelty only; 0.0 when the
memory embeddings are empty or the query is absent; the result is clamped
into the unit interval. -/
def computeCuriosity {E : Type} (sim : E → ℚ) (threshold : ℚ)
    (mem : List E) (queryPresent : Bool) : ℚ :=
  let novelty :=
    if ¬ mem.isEmpty ∧ queryPresent then computeNoveltyScore sim threshold mem
    else 0
  clamp01 novelty

/-- The default of curiosity_config.similarity_early_exit_threshold read at
sovl_curiosity.py line 59. -/
def similarityEarlyExitDefault : ℚ := 0.99

/-- CuriosityManager._calculate_novelty (sovl_curiosity.py lines 916-931):
given the cosine similarities of the prompt embedding against each seen
prompt, 1.0 when no prompts were seen, else 1 minus their maximum (note: this
prompt-based scorer does not clamp). -/
def calcNovelty (sims : List ℚ) : ℚ :=
  match sims with
  | [] => 1
  | x :: xs => 1 - xs.foldl max x

/-- CuriosityManager._calculate_ignorance (lines 933-968): 1.0 when retrieval
yields no usable result, else clamp(1 - cosine(query, best), 0, 1). -/
def calcIgnorance (best : Option ℚ) : ℚ :=
  match best with
  | none => 1
  | some simBest => clamp01 (1 - simBest)

/-- CuriosityManager.calculate_curiosity_score (lines 970-984):
0.5 * novelty + 0.5 * ignorance, with the component scorers above. -/
def calculateCuriosityScore (sims : List ℚ) (best : Option ℚ) : ℚ :=
  0.5 * calcNovelty sims + 0.5 * calcIgnorance best

/-- The state of a CuriosityPressure object (sovl_curiosity.py lines 411-548)
together with its configuration-derived constants. -/
structure PressureState where
  minPressure : ℚ
  maxPressure : ℚ
  decayRate : ℚ
  cooldown : ℚ
  current : ℚ
  lastUpdate : ℚ
  lastEruption : ℚ

/-- CuriosityPressure.decay_pressure (lines 505-523): multiply by
(1 - decay_rate * elapsed), floor at min_pressure, stamp last_update. -/
def decayPressure (s : PressureState) (now : ℚ) : PressureState :=
  let elapsed := now - s.lastUpdate
  let factor := s.decayRate * elapsed
  { s with current := max s.minPressure (s.current * (1 - factor)),
           lastUpdate := now }

/-- CuriosityPressure.check_eruption (lines 525-548): decay first; erupt when
the decayed pressure reaches the threshold and the cooldown has elapsed since
the last eruption, dropping the pressure (floored at min) and stamping the
eruption time. -/
def checkEruption (s : PressureState) (now threshold dropAmt : ℚ) :
    Bool × PressureState :=
  let s1 := decayPressure s now
  if threshold ≤ s1.current ∧ s.cooldown < now - s1.lastEruption then
    (true, { s1 with current := max s1.minPressure (s1.current - dropAmt),
                     lastEruption := now })
  else (false, s1)

/-- One call to check_eruption: the wall-clock time it happens at and its
threshold/drop arguments. -/
structure ECall where
  time : ℚ
  threshold : ℚ
  dropAmt : ℚ

/-- A chronological sequence of check_eruption calls, returning each result
and the final state. -/
def runEruptions : PressureState → List ECall → List Bool × PressureState
  | s, [] => ([], s)
  | s, c :: rest =>
    let r := checkEruption s c.time c.threshold c.dropAmt
    let rs := runEruptions r.2 rest
    (r.1 :: rs.1, rs.2)

/-- The TemperamentConfig fields that update_temperament reads. The melancholy
noise magnitude does not appear: the whole sampled noise term is an oracle
argument to the update. -/
structure TempConfig where
  sluggishThreshold : ℚ
  curiosityBoost : ℚ
  confFeedbackStrength : ℚ
  tempSmoothingFactor : ℚ
  decayRate : ℚ
  earlyLifecycle : ℚ
  midLifecycle : ℚ
  historyMaxlen : ℕ
  confidenceHistoryMaxlen : ℕ

/-- A bounded deque append: push on the right, dropping from the left past
maxlen. -/
def dequeAppend (xs : List ℚ) (x : ℚ) (maxlen : ℕ) : List ℚ :=
  let ys := xs ++ [x]
  ys.drop (ys.length - maxlen)

/-- torch.var of a list: the unbiased sample variance. The sub-two-element
cases are unreachable because the variance branch requires the history to
have reached history_maxlen, which TemperamentConfig bounds below by 3. -/
def listVar (xs : List ℚ) : ℚ :=
  match xs.length with
  | 0 => 0
  | 1 => 0
  | n + 2 =>
    let m := xs.sum / ((n : ℚ) + 2)
    (xs.map (fun x => (x - m) ^ 2)).sum / ((n : ℚ) + 1)

/-- sovl_utils.safe_divide, whose source is not in the repository: modelled
from the spec as ordinary division with a default for a zero denominator. -/
def safeDivide (a : ℚ) (n : ℕ) (dflt : ℚ) : ℚ :=
  if n = 0 then dflt else a / (n : ℚ)

/-- The mutable TemperamentSystem state that update_temperament touches. -/
structure TempState where
  score : ℚ
  history : List ℚ
  confidenceHistory : List ℚ
  sleepConfidenceSum : ℚ
  sleepConfidenceCount : ℕ
  lastUpdate : ℚ

/-- TemperamentSystem._calculate_lifecycle_bias (sovl_temperament.py lines
312-326). float_lt is not among the repository sources and is modelled as
strict less-than. The divisions are safe in practice because the config
ranges force early_lifecycle into [0.1, 0.3] and mid_lifecycle into
[0.6, 0.8]. -/
def lifecycleBias (cfg : TempConfig) (st : TempState) (stage : ℚ) : ℚ :=
  if stage < cfg.earlyLifecycle then
    cfg.curiosityBoost * (1 - stage / cfg.earlyLifecycle)
  else if stage < cfg.midLifecycle then
    (if cfg.historyMaxlen ≤ st.history.length then -0.2 * listVar st.history
     else 0)
  else
    -cfg.curiosityBoost * ((stage - cfg.midLifecycle) / (1 - cfg.midLifecycle))

/-- The curiosity_pressure guard of update_temperament (sovl_temperament.py
lines 248-249): the range is checked only when the argument is supplied. -/
def cpOutOfRange : Option ℚ → Bool
  | some c => decide (¬ (0 ≤ c ∧ c ≤ 1))
  | none => false

/-- TemperamentSystem.update_temperament (sovl_temperament.py lines 237-280)
with its helpers _update_confidence, _calculate_avg_confidence,
_compute_target_score, _apply_smoothing and _update_state inlined in source
order. none models the ValueError raised for out-of-range inputs (raised
before any state is touched). noise is the sampled value of _calculate_noise;
now is the wall clock read by _apply_smoothing and _update_state. -/
def updateTemperament (cfg : TempConfig) (st : TempState)
    (confidence stage : ℚ) (dtOpt : Option ℚ) (cp : Option ℚ)
    (noise : ℚ) (now : ℚ) : Option TempState :=
  if ¬ (0 ≤ confidence ∧ confidence ≤ 1) then none
  else if ¬ (0 ≤ stage ∧ stage ≤ 1) then none
  else if cpOutOfRange cp then none
  else
    let confHist := dequeAppend st.confidenceHistory confidence
        cfg.confidenceHistoryMaxlen
    let sum := st.sleepConfidenceSum + confidence
    let count := st.sleepConfidenceCount + 1
    let avg := safeDivide sum count (1 / 2)
    let baseScore := 2 * (avg - 1 / 2)
    let bias := lifecycleBias cfg st stage
    let t0 := baseScore + bias + cfg.confFeedbackStrength * (avg - 1 / 2)
    let t1 := match cp with
              | some c => t0 + cfg.curiosityBoost * c
              | none => t0
    let t2 := t1 + noise
    let target := max (-1) (min 1 t2)
    let dt := match dtOpt with
              | some d => d
              | none => now - st.lastUpdate
    let decay := cfg.decayRate * dt
    let smoothing := cfg.tempSmoothingFactor * (1 - decay)
    let score1 := (1 - smoothing) * target + smoothing * st.score
    let newScore := max (-1) (min 1 score1)
    some { score := newScore,
           history := dequeAppend st.history newScore cfg.historyMaxlen,
           confidenceHistory := confHist,
           sleepConfidenceSum := sum,
           sleepConfidenceCount := count,
           lastUpdate := now }

/-! Reference state: the manager constructed from an empty (missing or
corrupt) config file, with the identity as abstract hash function. Every
default validates, so the flat config stays empty, the cache carries exactly
the schema defaults, and the structured tree is filled from them. -/

/-- The store after initialization from an empty file. -/
def s0Store : Store :=
  { flat := .dict [],
    structured := (rebuildStructured
      { flat := .dict [], structured := initialStructured, cache := [] }
      defaultSchema).1.structured,
    cache := defaultSchema.map (fun sch => (sch.field, sch.default)) }

/-- The manager state after initialization from an empty file. -/
def s0 : CMState Value :=
  { schemas := registerSchemas [] defaultSchema,
    store := s0Store,
    frozen := false,
    lastConfigHash := .dict [],
    subscribers := [] }

/-- s0 is exactly what the constructor produces on an empty file. -/
theorem s0_is_init : initConfigManager id (Value.dict []) = some s0 := by rfl

/-- Extract the state from an update_batch result (total, with a fallback for
the caller-propagated exception case, which the concrete runs below never
hit). -/
def batchState (r : Except Unit (Bool × CMState Value)) (fallback : CMState Value) :
    CMState Value :=
  match r with
  | .ok p => p.2
  | .error _ => fallback

/-- C10: calling update_batch with an empty updates map returns True
immediately: the guard at the top of the method fires before the backup is
taken, before any validation or set_value, before the save and before any
subscriber notification, and the state is returned unchanged. -/
theorem C10_updateBatch_empty_noop {α : Type} (hashFn : Value → α)
    (s : CMState α) (rollbackOnFailure saveOk : Bool) :
    updateBatch hashFn s [] rollbackOnFailure saveOk = .ok (true, s) := rfl

/-- The state reached by running update_batch on the frozen empty-file state
with a quantization write. -/
def sC2 : CMState Value :=
  batchState (updateBatch id (freeze s0)
    [("core_config.quantization", .str "fp32")] true true) (freeze s0)

/-- C2 (code evidence): after freeze(), the single-key update of
core_config.quantization to fp32 returns False and leaves the state intact,
exactly as the claim says; but update_batch never consults the frozen flag:
on the frozen state it applies a quantization write, returns True, and the
read value changes from fp16 to fp32. -/
theorem C2_frozen_blocks_update_but_not_updateBatch :
    (freeze s0).frozen = true
    ∧ update id (freeze s0) "core_config.quantization" (.str "fp32")
        = (false, freeze s0)
    ∧ cmGet (freeze s0) "core_config.quantization" .null = .str "fp16"
    ∧ updateBatch id (freeze s0)
        [("core_config.quantization", .str "fp32")] true true
        = .ok (true, sC2)
    ∧ cmGet sC2 "core_config.quantization" .null = .str "fp32"
    ∧ sC2.frozen = true :=
  ⟨rfl, rfl, rfl, rfl, rfl, rfl⟩

/-- The state reached by running update_batch on the empty-file state with an
invalid scheduler_type value. -/
def sC1 : CMState Value :=
  batchState (updateBatch id s0
    [("training_config.scheduler_type", .str "bogus")] true true) s0

/-- C1 (code evidence): the pair (training_config.scheduler_type, "bogus")
fails schema validation, so by the claim update_batch with rollback must
return False and change nothing; instead the validation loop of update_batch
never fails (its truthiness test of the validate tuple is dead code), the
invalid value is applied and saved, and True is returned with the bogus value
readable afterwards and the flat map changed. -/
theorem C1_updateBatch_validation_dead :
    (validate s0.schemas "training_config.scheduler_type" (.str "bogus")).1
      = false
    ∧ updateBatch id s0
        [("training_config.scheduler_type", .str "bogus")] true true
        = .ok (true, sC1)
    ∧ cmGet sC1 "training_config.scheduler_type" .null = .str "bogus"
    ∧ sC1.store.flat ≠ s0.store.flat :=
  ⟨rfl, rfl, rfl, fun h => List.cons_ne_nil _ _ (Value.dict.inj h)⟩

/-- The state reached by running update_batch on the empty-file state with a
valid use_dynamic_layers write. -/
def sC3 : CMState Value :=
  batchState (updateBatch id s0
    [("core_config.use_dynamic_layers", .bool true)] true true) s0

/-- C3 (counterexample): a successful update_batch changes the flat map but
never recomputes the stored change hash, so after this call the flat map
differs while the stored hash is unchanged, refuting the claimed equivalence
for the update_batch write path. -/
theorem C3_counterexample_updateBatch_stale_hash :
    updateBatch id s0 [("core_config.use_dynamic_layers", .bool true)]
        true true = .ok (true, sC3)
    ∧ sC3.store.flat ≠ s0.store.flat
    ∧ sC3.lastConfigHash = s0.lastConfigHash :=
  ⟨rfl, fun h => List.cons_ne_nil _ _ (Value.dict.inj h), rfl⟩

/-- The except clause of update_batch always reports failure when it returns
at all. -/
theorem exceptPath_fst {α : Type} {hashFn : Value → α} {s : CMState α}
    {stNow : Store} {rb : Bool} {b : Bool} {x : CMState α}
    (h : exceptPath hashFn s stNow rb = .ok (b, x)) : b = false := by
  unfold exceptPath at h
  split at h
  · split at h
    · cases h
    · have h1 : false = b := by injection Except.ok.inj h
      exact h1.symm
  · have h1 : false = b := by injection Except.ok.inj h
    exact h1.symm

/-- C3 (amended): for the single-key update path returning True, when the
stored hash matches the flat config and the hash function is collision-free,
the stored hash changes iff the flat config changes; the update_batch path
returning True never recomputes the stored hash. -/
theorem C3_update_hash_changes_iff_flat_changes {α : Type}
    (hashFn : Value → α) (hinj : Function.Injective hashFn) :
    (∀ (s : CMState α) (key : String) (v : Value) (s' : CMState α),
      s.lastConfigHash = hashFn s.store.flat →
      update hashFn s key v = (true, s') →
      (s'.lastConfigHash ≠ s.lastConfigHash ↔ s'.store.flat ≠ s.store.flat))
    ∧ (∀ (s : CMState α) (updates : List (String × Value))
        (rb saveOk : Bool) (s' : CMState α),
      updateBatch hashFn s updates rb saveOk = .ok (true, s') →
      s'.lastConfigHash = s.lastConfigHash) := by
  constructor
  · intro s key v s' hwf hupd
    unfold update at hupd
    split at hupd
    · exact absurd (congrArg Prod.fst hupd) (by simp)
    · split at hupd
      · exact absurd (congrArg Prod.fst hupd) (by simp)
      · split at hupd
        · exact absurd (congrArg Prod.fst hupd) (by simp)
        · have hs2 : ({ s with store := ((setValue s.store key v).1), lastConfigHash := hashFn (setValue s.store key v).1.flat } : CMState α) = s' := by
            injection hupd
          subst hs2
          show hashFn (setValue s.store key v).1.flat ≠ s.lastConfigHash
            ↔ (setValue s.store key v).1.flat ≠ s.store.flat
          rw [hwf]
          exact ⟨fun hne hflat => hne (congrArg hashFn hflat),
                 fun hflat hh => hflat (hinj hh)⟩
  · intro s updates rb saveOk s' h
    unfold updateBatch at h
    split at h
    · have hs2 : s = s' := by
        injection Except.ok.inj h
      rw [← hs2]
    · split at h
      · cases h
      · split at h
        · exact absurd (exceptPath_fst h) (by simp)
        · split at h
          · exact absurd (exceptPath_fst h) (by simp)
          · split at h
            · exact absurd (exceptPath_fst h) (by simp)
            · have hs2 : ({ s with store := (applyAll s.store updates).1 }
                  : CMState α) = s' := by
                injection Except.ok.inj h
              rw [← hs2]

/-- C3 witness: the amended theorem applied at the identity hash function, the
empty-file state and a concrete valid hidden_size update. -/
theorem C3_update_hash_changes_iff_flat_changes_witness :
    update id s0 "core_config.hidden_size" (.int 512)
        = (true, (update id s0 "core_config.hidden_size" (.int 512)).2)
    ∧ (((update id s0 "core_config.hidden_size" (.int 512)).2.lastConfigHash
          ≠ s0.lastConfigHash)
        ↔ ((update id s0 "core_config.hidden_size" (.int 512)).2.store.flat
          ≠ s0.store.flat)) :=
  ⟨rfl, (C3_update_hash_changes_iff_flat_changes id (fun _ _ h => h)).1
    s0 "core_config.hidden_size" (.int 512) _ rfl rfl⟩

/-! Supporting development for the default-population claim (C5): association
list lemmas, a non-interference (frame) lemma for set_value, and the
invariant carried by _validate_and_set_defaults. -/

/-- Whether a value is a Python dict. -/
def isDictV : Value → Bool
  | .dict _ => true
  | _ => false

theorem lookup_insertKey_self {β : Type} (l : List (String × β)) (k : String)
    (v : β) : lookupKey (insertKey l k v) k = some v := by
  induction l with
  | nil => simp [insertKey, lookupKey]
  | cons p rest ih =>
    obtain ⟨pk, pv⟩ := p
    by_cases h : pk = k
    · subst h
      simp [insertKey, lookupKey]
    · simp [insertKey, lookupKey, h, ih]

theorem lookup_insertKey_ne {β : Type} (l : List (String × β)) (k k' : String)
    (v : β) (h : k ≠ k') : lookupKey (insertKey l k' v) k = lookupKey l k := by
  induction l with
  | nil => simp [insertKey, lookupKey, Ne.symm h]
  | cons p rest ih =>
    obtain ⟨pk, pv⟩ := p
    by_cases hp : pk = k'
    · subst hp
      have hpk : pk ≠ k := Ne.symm h
      simp [insertKey, lookupKey, hpk]
    · by_cases hk : pk = k <;> simp [insertKey, lookupKey, hp, hk, h, ih]

/-- Two segment lists diverge when they disagree at some position common to
both; diverging paths in the config tree cannot interfere. -/
def segDiverge : List String → List String → Bool
  | [], _ => false
  | _ :: _, [] => false
  | a :: as, b :: bs => if a = b then segDiverge as bs else true

theorem segDiverge_nil_right (l : List String) : segDiverge l [] = false := by
  cases l <;> rfl

theorem segDiverge_self (l : List String) : segDiverge l l = false := by
  induction l with
  | nil => rfl
  | cons a as ih => simp [segDiverge, ih]

theorem ne_of_segDiverge {s t : String}
    (h : segDiverge (splitDot s) (splitDot t) = true) : s ≠ t := by
  intro he
  subst he
  rw [segDiverge_self] at h
  exact Bool.false_ne_true h

theorem descend_nondict_cons (v : Value) (hv : isDictV v = false) (k : String)
    (ks : List String) (d : Value) : pyGetDescend v (k :: ks) d = d := by
  cases v <;> first | rfl | simp [isDictV] at hv

theorem descend_nil (v d : Value) : pyGetDescend v [] d = v := by
  cases v <;> rfl

theorem descend_self_nondict (d : Value) (hd : isDictV d = false)
    (ks : List String) : pyGetDescend d ks d = d := by
  cases ks with
  | nil => exact descend_nil d d
  | cons k ks => exact descend_nondict_cons d hd k ks d

theorem descend_ins_fresh2 (dd : List (String × Value)) (a b : String)
    (v dflt : Value) (segs : List String)
    (hdiv : segDiverge segs [a, b] = true) (hnd : isDictV dflt = false)
    (hla : lookupKey dd a = none) :
    pyGetDescend (.dict (insertKey dd a (.dict [(b, v)]))) segs dflt
      = pyGetDescend (.dict dd) segs dflt := by
  cases segs with
  | nil => simp [segDiverge] at hdiv
  | cons k1 ks =>
    by_cases h1 : k1 = a
    · subst h1
      have hdiv2 : segDiverge ks [b] = true := by simpa [segDiverge] using hdiv
      cases ks with
      | nil => simp [segDiverge] at hdiv2
      | cons k2 ks2 =>
        have h2 : k2 ≠ b := by
          intro he
          subst he
          simp [segDiverge, segDiverge_nil_right] at hdiv2
        simp only [pyGetDescend, lookup_insertKey_self, hla, Option.getD]
        rw [descend_nondict_cons dflt hnd]
        simp only [pyGetDescend, lookupKey, if_neg (Ne.symm h2), Option.getD]
        exact descend_self_nondict dflt hnd ks2
    · simp only [pyGetDescend, lookup_insertKey_ne _ _ _ _ h1]

theorem descend_ins_exist2 (dd e : List (String × Value)) (a b : String)
    (v dflt : Value) (segs : List String)
    (hdiv : segDiverge segs [a, b] = true)
    (hla : lookupKey dd a = some (.dict e)) :
    pyGetDescend (.dict (insertKey dd a (.dict (insertKey e b v)))) segs dflt
      = pyGetDescend (.dict dd) segs dflt := by
  cases segs with
  | nil => simp [segDiverge] at hdiv
  | cons k1 ks =>
    by_cases h1 : k1 = a
    · subst h1
      have hdiv2 : segDiverge ks [b] = true := by simpa [segDiverge] using hdiv
      cases ks with
      | nil => simp [segDiverge] at hdiv2
      | cons k2 ks2 =>
        have h2 : k2 ≠ b := by
          intro he
          subst he
          simp [segDiverge, segDiverge_nil_right] at hdiv2
        simp only [pyGetDescend, lookup_insertKey_self, hla, Option.getD]
        simp only [pyGetDescend, lookup_insertKey_ne _ _ _ _ h2]
    · simp only [pyGetDescend, lookup_insertKey_ne _ _ _ _ h1]

theorem descend_ins_fresh3 (dd : List (String × Value)) (a b c : String)
    (v dflt : Value) (segs : List String)
    (hdiv : segDiverge segs [a, b, c] = true) (hnd : isDictV dflt = false)
    (hla : lookupKey dd a = none) :
    pyGetDescend (.dict (insertKey dd a (.dict [(b, .dict [(c, v)])]))) segs dflt
      = pyGetDescend (.dict dd) segs dflt := by
  cases segs with
  | nil => simp [segDiverge] at hdiv
  | cons k1 ks =>
    by_cases h1 : k1 = a
    · subst h1
      have hdiv2 : segDiverge ks [b, c] = true := by simpa [segDiverge] using hdiv
      cases ks with
      | nil => simp [segDiverge] at hdiv2
      | cons k2 ks2 =>
        simp only [pyGetDescend, lookup_insertKey_self, hla, Option.getD]
        rw [descend_nondict_cons dflt hnd]
        by_cases h2 : k2 = b
        · subst h2
          have hdiv3 : segDiverge ks2 [c] = true := by simpa [segDiverge] using hdiv2
          cases ks2 with
          | nil => simp [segDiverge] at hdiv3
          | cons k3 ks3 =>
            have h3 : k3 ≠ c := by
              intro he
              subst he
              simp [segDiverge, segDiverge_nil_right] at hdiv3
            simp only [pyGetDescend, lookupKey, if_pos rfl, Option.getD]
            simp only [pyGetDescend, lookupKey, if_neg (Ne.symm h3), Option.getD]
            exact descend_self_nondict dflt hnd ks3
        · simp only [pyGetDescend, lookupKey, if_neg (fun he : b = k2 => h2 he.symm),
            Option.getD]
          exact descend_self_nondict dflt hnd ks2
    · simp only [pyGetDescend, lookup_insertKey_ne _ _ _ _ h1]

theorem descend_ins_mid3 (dd e : List (String × Value)) (a b c : String)
    (v dflt : Value) (segs : List String)
    (hdiv : segDiverge segs [a, b, c] = true) (hnd : isDictV dflt = false)
    (hla : lookupKey dd a = some (.dict e)) (hlb : lookupKey e b = none) :
    pyGetDescend
        (.dict (insertKey dd a (.dict (insertKey e b (.dict [(c, v)]))))) segs dflt
      = pyGetDescend (.dict dd) segs dflt := by
  cases segs with
  | nil => simp [segDiverge] at hdiv
  | cons k1 ks =>
    by_cases h1 : k1 = a
    · subst h1
      have hdiv2 : segDiverge ks [b, c] = true := by simpa [segDiverge] using hdiv
      cases ks with
      | nil => simp [segDiverge] at hdiv2
      | cons k2 ks2 =>
        simp only [pyGetDescend, lookup_insertKey_self, hla, Option.getD]
        by_cases h2 : k2 = b
        · subst h2
          have hdiv3 : segDiverge ks2 [c] = true := by simpa [segDiverge] using hdiv2
          cases ks2 with
          | nil => simp [segDiverge] at hdiv3
          | cons k3 ks3 =>
            have h3 : k3 ≠ c := by
              intro he
              subst he
              simp [segDiverge, segDiverge_nil_right] at hdiv3
            simp only [pyGetDescend, lookup_insertKey_self, hlb, Option.getD]
            rw [descend_nondict_cons dflt hnd]
            simp only [pyGetDescend, lookupKey, if_neg (Ne.symm h3), Option.getD]
            exact descend_self_nondict dflt hnd ks3
        · simp only [pyGetDescend, lookup_insertKey_ne _ _ _ _ h2]
    · simp only [pyGetDescend, lookup_insertKey_ne _ _ _ _ h1]

theorem descend_ins_deep3 (dd e f : List (String × Value)) (a b c : String)
    (v dflt : Value) (segs : List String)
    (hdiv : segDiverge segs [a, b, c] = true)
    (hla : lookupKey dd a = some (.dict e))
    (hlb : lookupKey e b = some (.dict f)) :
    pyGetDescend
        (.dict (insertKey dd a (.dict (insertKey e b (.dict (insertKey f c v))))))
        segs dflt
      = pyGetDescend (.dict dd) segs dflt := by
  cases segs with
  | nil => simp [segDiverge] at hdiv
  | cons k1 ks =>
    by_cases h1 : k1 = a
    · subst h1
      have hdiv2 : segDiverge ks [b, c] = true := by simpa [segDiverge] using hdiv
      cases ks with
      | nil => simp [segDiverge] at hdiv2
      | cons k2 ks2 =>
        simp only [pyGetDescend, lookup_insertKey_self, hla, Option.getD]
        by_cases h2 : k2 = b
        · subst h2
          have hdiv3 : segDiverge ks2 [c] = true := by simpa [segDiverge] using hdiv2
          cases ks2 with
          | nil => simp [segDiverge] at hdiv3
          | cons k3 ks3 =>
            have h3 : k3 ≠ c := by
              intro he
              subst he
              simp [segDiverge, segDiverge_nil_right] at hdiv3
            simp only [pyGetDescend, lookup_insertKey_self, hlb, Option.getD]
            simp only [pyGetDescend, lookup_insertKey_ne _ _ _ _ h3]
        · simp only [pyGetDescend, lookup_insertKey_ne _ _ _ _ h2]
    · simp only [pyGetDescend, lookup_insertKey_ne _ _ _ _ h1]

theorem descend_flatWrite2 (fl : Value) (a b : String) (v dflt : Value)
    (segs : List String) (hdiv : segDiverge segs [a, b] = true)
    (hnd : isDictV dflt = false) :
    pyGetDescend (flatWrite2 fl a b v).1 segs dflt
      = pyGetDescend fl segs dflt := by
  cases fl with
  | dict dd =>
    cases hla : lookupKey dd a with
    | none =>
      simp only [flatWrite2, hla]
      exact descend_ins_fresh2 dd a b v dflt segs hdiv hnd hla
    | some w =>
      cases w with
      | dict e =>
        simp only [flatWrite2, hla]
        exact descend_ins_exist2 dd e a b v dflt segs hdiv hla
      | null => simp only [flatWrite2, hla]
      | bool x => simp only [flatWrite2, hla]
      | int x => simp only [flatWrite2, hla]
      | float x => simp only [flatWrite2, hla]
      | str x => simp only [flatWrite2, hla]
      | list x => simp only [flatWrite2, hla]
  | null => rfl
  | bool x => rfl
  | int x => rfl
  | float x => rfl
  | str x => rfl
  | list x => rfl

theorem descend_flatWrite3 (fl : Value) (a b c : String) (v dflt : Value)
    (segs : List String) (hdiv : segDiverge segs [a, b, c] = true)
    (hnd : isDictV dflt = false) :
    pyGetDescend (flatWrite3 fl a b c v).1 segs dflt
      = pyGetDescend fl segs dflt := by
  cases fl with
  | dict dd =>
    cases hla : lookupKey dd a with
    | none =>
      simp only [flatWrite3, hla]
      exact descend_ins_fresh3 dd a b c v dflt segs hdiv hnd hla
    | some w =>
      cases w with
      | dict e =>
        cases hlb : lookupKey e b with
        | none =>
          simp only [flatWrite3, hla, hlb]
          exact descend_ins_mid3 dd e a b c v dflt segs hdiv hnd hla hlb
        | some w2 =>
          cases w2 with
          | dict f =>
            simp only [flatWrite3, hla, hlb]
            exact descend_ins_deep3 dd e f a b c v dflt segs hdiv hla hlb
          | null => simp only [flatWrite3, hla, hlb]
          | bool x => simp only [flatWrite3, hla, hlb]
          | int x => simp only [flatWrite3, hla, hlb]
          | float x => simp only [flatWrite3, hla, hlb]
          | str x => simp only [flatWrite3, hla, hlb]
          | list x => simp only [flatWrite3, hla, hlb]
      | null => simp only [flatWrite3, hla]
      | bool x => simp only [flatWrite3, hla]
      | int x => simp only [flatWrite3, hla]
      | float x => simp only [flatWrite3, hla]
      | str x => simp only [flatWrite3, hla]
      | list x => simp only [flatWrite3, hla]
  | null => rfl
  | bool x => rfl
  | int x => rfl
  | float x => rfl
  | str x => rfl
  | list x => rfl

theorem setValue_cache (st : Store) (key : String) (v : Value) :
    (setValue st key v).1.cache = insertKey st.cache key v := by
  unfold setValue
  split
  · unfold setFlatStruct2
    split <;> rfl
  · split
    · unfold setFlatStruct3
      split <;> rfl
    · rfl
  · rfl

/-- The frame property of set_value: reading a key whose dotted path diverges
from the written path (with a non-dict read default) is unaffected. -/
theorem frame_setValue (st : Store) (key k : String) (v dflt : Value)
    (hdiv : segDiverge (splitDot k) (splitDot key) = true)
    (hnd : isDictV dflt = false) :
    getValue (setValue st key v).1 k dflt = getValue st k dflt := by
  have hkne : k ≠ key := ne_of_segDiverge hdiv
  unfold getValue
  rw [setValue_cache, lookup_insertKey_ne _ _ _ _ hkne]
  cases hc : lookupKey st.cache k with
  | some w => rfl
  | none =>
    suffices hs : pyGetDescend (setValue st key v).1.flat (splitDot k) dflt
        = pyGetDescend st.flat (splitDot k) dflt by rw [hs]
    rcases hsk : splitDot key with _ | ⟨a, _ | ⟨b, _ | ⟨c, _ | ⟨d4, rest⟩⟩⟩⟩
    · have hf : (setValue st key v).1.flat = st.flat := by
        unfold setValue
        rw [hsk]
      rw [hf]
    · have hf : (setValue st key v).1.flat = st.flat := by
        unfold setValue
        rw [hsk]
      rw [hf]
    · have hf : (setValue st key v).1.flat = (flatWrite2 st.flat a b v).1 := by
        unfold setValue
        rw [hsk]
        show (setFlatStruct2 { st with cache := insertKey st.cache key v } a b v).1.flat
          = (flatWrite2 st.flat a b v).1
        unfold setFlatStruct2
        split <;> rfl
      rw [hf]
      rw [hsk] at hdiv
      exact descend_flatWrite2 st.flat a b v dflt (splitDot k) hdiv hnd
    · by_cases hg : a = "training_config" ∧ b = "dry_run_params"
      · have hf : (setValue st key v).1.flat = (flatWrite3 st.flat a b c v).1 := by
          unfold setValue
          rw [hsk]
          show (if a = "training_config" ∧ b = "dry_run_params" then
              setFlatStruct3 { st with cache := insertKey st.cache key v } a b c v
            else ({ st with cache := insertKey st.cache key v }, true)).1.flat
            = (flatWrite3 st.flat a b c v).1
          rw [if_pos hg]
          unfold setFlatStruct3
          split <;> rfl
        rw [hf]
        rw [hsk] at hdiv
        exact descend_flatWrite3 st.flat a b c v dflt (splitDot k) hdiv hnd
      · have hf : (setValue st key v).1.flat = st.flat := by
          unfold setValue
          rw [hsk]
          show (if a = "training_config" ∧ b = "dry_run_params" then
              setFlatStruct3 { st with cache := insertKey st.cache key v } a b c v
            else ({ st with cache := insertKey st.cache key v }, true)).1.flat
            = st.flat
          rw [if_neg hg]
        rw [hf]
    · have hf : (setValue st key v).1.flat = st.flat := by
        unfold setValue
        rw [hsk]
      rw [hf]

theorem validateOne_false_snd (sch : PSchema) (v : Value)
    (h : (validateOne sch v).1 = false) : (validateOne sch v).2 = sch.default := by
  unfold validateOne at h ⊢
  split at h
  · simp at h
  · split
    · rename_i hok hok'
      exact absurd hok' hok
    · rfl

theorem validateOne_true_not_null (sch : PSchema) (v : Value)
    (hn : sch.nullable = false) (h : (validateOne sch v).1 = true) :
    v ≠ .null := by
  intro he
  subst he
  unfold validateOne validateOk at h
  rw [hn] at h
  simp at h

theorem validateOne_true_not_dict (sch : PSchema) (v : Value)
    (h : (validateOne sch v).1 = true) : isDictV v = false := by
  cases v with
  | dict xs =>
    unfold validateOne validateOk isInstOf at h
    cases sch.type <;> simp at h
  | null => rfl
  | bool x => rfl
  | int x => rfl
  | float x => rfl
  | str x => rfl
  | list x => rfl

theorem coalesce_self (v d : Value) (h1 : v ≠ .null) (h2 : isDictV v = false) :
    coalesce v d = v := by
  cases v with
  | null => exact absurd rfl h1
  | dict xs => simp [isDictV] at h2
  | bool x => rfl
  | int x => rfl
  | float x => rfl
  | str x => rfl
  | list x => rfl

/-- One _validate_and_set_defaults step leaves reads of diverging keys
unchanged. -/
theorem frame_vsdStep (schemas : List (String × PSchema)) (st : Store)
    (sch : PSchema) (st' : Store) (hstep : vsdStep schemas st sch = some st')
    (k : String) (dflt : Value)
    (hdiv : segDiverge (splitDot k) (splitDot sch.field) = true)
    (hnd : isDictV dflt = false) :
    getValue st' k dflt = getValue st k dflt := by
  unfold vsdStep at hstep
  split at hstep
  · rw [← Option.some.inj hstep]
  · split at hstep
    · cases hstep
    · rw [← Option.some.inj hstep]
      exact frame_setValue st sch.field k (vsdVal schemas st sch).2 dflt hdiv hnd

/-- Running _validate_and_set_defaults over schemas whose paths all diverge
from k leaves reads of k unchanged. -/
theorem frame_vsd (schemas : List (String × PSchema)) (k : String)
    (dflt : Value) (hnd : isDictV dflt = false) :
    ∀ (defs : List PSchema) (st st' : Store),
    validateAndSetDefaults schemas st defs = some st' →
    (∀ r ∈ defs, segDiverge (splitDot k) (splitDot r.field) = true) →
    getValue st' k dflt = getValue st k dflt := by
  intro defs
  induction defs with
  | nil =>
    intro st st' h _
    rw [← Option.some.inj h]
  | cons s rest ih =>
    intro st st' h hdivs
    cases hstep : vsdStep schemas st s with
    | none =>
      simp only [validateAndSetDefaults, hstep] at h
      cases h
    | some st1 =>
      simp only [validateAndSetDefaults, hstep] at h
      have h1 := frame_vsdStep schemas st s st1 hstep k dflt
        (hdivs s (List.mem_cons_self _ _)) hnd
      have h2 := ih st1 st' h (fun r hr => hdivs r (List.mem_cons_of_mem _ hr))
      rw [h2, h1]

/-- The invariant established by _validate_and_set_defaults: afterwards, for
every processed schema, the value read back (with the schema default for
missing data) passes validation. -/
theorem vsd_valid (schemas : List (String × PSchema)) :
    ∀ (defs : List PSchema) (st st' : Store),
    validateAndSetDefaults schemas st defs = some st' →
    (∀ r ∈ defs, lookupKey schemas r.field = some r) →
    (∀ r ∈ defs, (validateOne r r.default).1 = true) →
    (∀ r ∈ defs, isDictV r.default = false) →
    List.Pairwise
      (fun x y => segDiverge (splitDot x.field) (splitDot y.field) = true) defs →
    ∀ sch ∈ defs, (validateOne sch (getValue st' sch.field sch.default)).1 = true := by
  intro defs
  induction defs with
  | nil =>
    intro st st' _ _ _ _ _ sch hm
    cases hm
  | cons s rest ih =>
    intro st st' h hlook hval hdict hpw sch hmem
    cases hstep : vsdStep schemas st s with
    | none =>
      simp only [validateAndSetDefaults, hstep] at h
      cases h
    | some st1 =>
      simp only [validateAndSetDefaults, hstep] at h
      rcases List.mem_cons.mp hmem with rfl | hmem'
      · have hl := hlook sch (List.mem_cons_self _ _)
        have hP1 : (validateOne sch (getValue st1 sch.field sch.default)).1 = true := by
          unfold vsdStep at hstep
          split at hstep
          · rename_i hok
            rw [← Option.some.inj hstep]
            unfold vsdVal validate at hok
            rw [hl] at hok
            exact hok
          · split at hstep
            · cases hstep
            · rename_i hok hset
              rw [← Option.some.inj hstep]
              have hcget : getValue
                  (setValue st sch.field (vsdVal schemas st sch).2).1
                  sch.field sch.default = (vsdVal schemas st sch).2 := by
                unfold getValue
                rw [setValue_cache, lookup_insertKey_self]
              rw [hcget]
              have hcorr : (vsdVal schemas st sch).2 = sch.default := by
                unfold vsdVal validate at hok ⊢
                rw [hl] at hok ⊢
                exact validateOne_false_snd sch _ (Bool.of_not_eq_true hok)
              rw [hcorr]
              exact hval sch (List.mem_cons_self _ _)
        have hdivs : ∀ r ∈ rest,
            segDiverge (splitDot sch.field) (splitDot r.field) = true :=
          fun r hr => (List.pairwise_cons.mp hpw).1 r hr
        have hfr := frame_vsd schemas sch.field sch.default
          (hdict sch (List.mem_cons_self _ _)) rest st1 st' h hdivs
        rw [hfr]
        exact hP1
      · exact ih st1 st' h
          (fun r hr => hlook r (List.mem_cons_of_mem _ hr))
          (fun r hr => hval r (List.mem_cons_of_mem _ hr))
          (fun r hr => hdict r (List.mem_cons_of_mem _ hr))
          (List.pairwise_cons.mp hpw).2 sch hmem'

theorem rebuildStep_cache_flat (st : Store) (sch : PSchema) :
    (rebuildStep st sch).1.cache = st.cache
    ∧ (rebuildStep st sch).1.flat = st.flat := by
  unfold rebuildStep
  split
  · unfold structSet2
    exact ⟨rfl, rfl⟩
  · split
    · unfold structSet3
      exact ⟨rfl, rfl⟩
    · exact ⟨rfl, rfl⟩
  · exact ⟨rfl, rfl⟩

theorem rebuild_cache_flat :
    ∀ (defs : List PSchema) (st : Store),
    (rebuildStructured st defs).1.cache = st.cache
    ∧ (rebuildStructured st defs).1.flat = st.flat := by
  intro defs
  induction defs with
  | nil => intro st; exact ⟨rfl, rfl⟩
  | cons s rest ih =>
    intro st
    unfold rebuildStructured foldSteps
    split
    · exact rebuildStep_cache_flat st s
    · have h1 := rebuildStep_cache_flat st s
      have h2 := ih (rebuildStep st s).1
      unfold rebuildStructured at h2
      exact ⟨h2.1.trans h1.1, h2.2.trans h1.2⟩

theorem getValue_congr (st1 st2 : Store) (hc : st1.cache = st2.cache)
    (hf : st1.flat = st2.flat) (k : String) (d : Value) :
    getValue st1 k d = getValue st2 k d := by
  unfold getValue
  rw [hc, hf]

theorem fold_lookup_of_notin (defs : List PSchema)
    (acc : List (String × PSchema)) (k : String)
    (hne : ∀ r ∈ defs, r.field ≠ k) :
    lookupKey (List.foldl (fun a s => insertKey a s.field s) acc defs) k
      = lookupKey acc k := by
  induction defs generalizing acc with
  | nil => rfl
  | cons s rest ih =>
    rw [List.foldl_cons]
    rw [ih (insertKey acc s.field s) (fun r hr => hne r (List.mem_cons_of_mem _ hr))]
    exact lookup_insertKey_ne acc k s.field s
      (Ne.symm (hne s (List.mem_cons_self _ _)))

theorem reg_lookup :
    ∀ (defs : List PSchema),
    List.Pairwise (fun x y => x.field ≠ y.field) defs →
    ∀ (acc : List (String × PSchema)) (sch : PSchema), sch ∈ defs →
    lookupKey acc sch.field = none →
    lookupKey (List.foldl (fun a s => insertKey a s.field s) acc defs) sch.field
      = some sch := by
  intro defs
  induction defs with
  | nil =>
    intro _ acc sch hmem _
    cases hmem
  | cons s rest ih =>
    intro hpw acc sch hmem hacc
    rw [List.foldl_cons]
    rcases List.mem_cons.mp hmem with rfl | hmem'
    · rw [fold_lookup_of_notin rest (insertKey acc sch.field sch) sch.field
        (fun r hr => Ne.symm ((List.pairwise_cons.mp hpw).1 r hr))]
      exact lookup_insertKey_self acc sch.field sch
    · refine ih (List.pairwise_cons.mp hpw).2 (insertKey acc s.field s) sch hmem' ?_
      rw [lookup_insertKey_ne acc sch.field s.field s
        (Ne.symm ((List.pairwise_cons.mp hpw).1 sch hmem'))]
      exact hacc

theorem lookup_map_fields (defs : List PSchema) (g : PSchema → Value)
    (sch : PSchema) (hmem : sch ∈ defs)
    (hpw : List.Pairwise (fun x y => x.field ≠ y.field) defs) :
    lookupKey (defs.map (fun r => (r.field, g r))) sch.field = some (g sch) := by
  induction defs with
  | nil => cases hmem
  | cons s rest ih =>
    rcases List.mem_cons.mp hmem with rfl | hmem'
    · simp [lookupKey]
    · have hne : s.field ≠ sch.field :=
        (List.pairwise_cons.mp hpw).1 sch hmem'
      simp only [List.map_cons, lookupKey, if_neg hne]
      exact ih hmem' (List.pairwise_cons.mp hpw).2

/-- Boolean pairwise path-divergence over a schema list. -/
def pairwiseDiverge : List PSchema → Bool
  | [] => true
  | s :: rest =>
    rest.all (fun r => segDiverge (splitDot s.field) (splitDot r.field))
    && pairwiseDiverge rest

theorem pairwiseDiverge_sound :
    ∀ (l : List PSchema), pairwiseDiverge l = true →
    List.Pairwise
      (fun x y => segDiverge (splitDot x.field) (splitDot y.field) = true) l := by
  intro l
  induction l with
  | nil => intro _; exact List.Pairwise.nil
  | cons s rest ih =>
    intro h
    simp only [pairwiseDiverge, Bool.and_eq_true] at h
    exact List.pairwise_cons.mpr
      ⟨fun r hr => (List.all_eq_true.mp h.1) r hr, ih h.2⟩

/-- Every pair of distinct DEFAULT_SCHEMA fields diverges as a dotted path
(checked by evaluation over the whole list). -/
theorem defaultSchema_pairwiseDiverge : pairwiseDiverge defaultSchema = true := by
  rfl

/-- Every default in DEFAULT_SCHEMA passes its own validation (checked by
evaluation). -/
theorem defaultSchema_defaults_valid :
    defaultSchema.all (fun r => (validateOne r r.default).1) = true := by
  rfl

/-- No default in DEFAULT_SCHEMA is a dict (checked by evaluation). -/
theorem defaultSchema_defaults_nondict :
    defaultSchema.all (fun r => !(isDictV r.default)) = true := by
  rfl

theorem defaultSchema_fields_pairwise_ne :
    List.Pairwise (fun x y => x.field ≠ y.field) defaultSchema :=
  (pairwiseDiverge_sound defaultSchema defaultSchema_pairwiseDiverge).imp
    (fun hdiv => ne_of_segDiverge hdiv)

theorem defaultSchema_reg_lookup (sch : PSchema) (hmem : sch ∈ defaultSchema) :
    lookupKey (registerSchemas [] defaultSchema) sch.field = some sch :=
  reg_lookup defaultSchema defaultSchema_fields_pairwise_ne [] sch hmem rfl

/-- C5 (amended): after construction from any input file, every
non-nullable DEFAULT_SCHEMA key reads back (against a null sentinel) a value
that is not the sentinel and that satisfies its schema. The two nullable
fields with a None default are excluded: their cache entry is None, which
ConfigManager.get coalesces to the caller-supplied sentinel. -/
theorem C5_nonnullable_defaults_present {α : Type} (hashFn : Value → α)
    (file : Value) (st : CMState α)
    (hinit : initConfigManager hashFn file = some st) :
    ∀ sch ∈ defaultSchema, sch.nullable = false →
      cmGet st sch.field .null ≠ .null
      ∧ (validateOne sch (cmGet st sch.field .null)).1 = true := by
  intro sch hmem hnn
  unfold initConfigManager at hinit
  cases hv : validateAndSetDefaults (registerSchemas [] defaultSchema)
      { flat := file, structured := initialStructured, cache := [] }
      defaultSchema with
  | none => rw [hv] at hinit; cases hinit
  | some st1 =>
    rw [hv] at hinit
    simp only at hinit
    split at hinit
    · cases hinit
    · have hst := Option.some.inj hinit
      subst hst
      have hvalid := vsd_valid (registerSchemas [] defaultSchema) defaultSchema
        _ st1 hv
        (fun r hr => defaultSchema_reg_lookup r hr)
        (fun r hr => List.all_eq_true.mp defaultSchema_defaults_valid r hr)
        (fun r hr => by
          have := List.all_eq_true.mp defaultSchema_defaults_nondict r hr
          simpa using this)
        (pairwiseDiverge_sound defaultSchema defaultSchema_pairwiseDiverge)
        sch hmem
      have hrb := rebuild_cache_flat defaultSchema st1
      have hval2 : getValue (rebuildStructured st1 defaultSchema).1 sch.field
          sch.default = getValue st1 sch.field sch.default :=
        getValue_congr _ _ hrb.1 hrb.2 sch.field sch.default
      have hlk : lookupKey
          (updateCache (rebuildStructured st1 defaultSchema).1 defaultSchema).cache
          sch.field
          = some (getValue (rebuildStructured st1 defaultSchema).1 sch.field
              sch.default) := by
        show lookupKey (defaultSchema.map (fun r =>
          (r.field, getValue (rebuildStructured st1 defaultSchema).1 r.field r.default)))
          sch.field = _
        exact lookup_map_fields defaultSchema _ sch hmem
          defaultSchema_fields_pairwise_ne
      have hgv : getValue
          (updateCache (rebuildStructured st1 defaultSchema).1 defaultSchema)
          sch.field .null = getValue st1 sch.field sch.default := by
        unfold getValue
        rw [hlk]
        exact hval2
      have hnotnull := validateOne_true_not_null sch _ hnn hvalid
      have hnotdict := validateOne_true_not_dict sch _ hvalid
      have hcm : cmGet
          ({ schemas := registerSchemas [] defaultSchema,
             store := updateCache (rebuildStructured st1 defaultSchema).1 defaultSchema,
             frozen := false,
             lastConfigHash := hashFn (updateCache (rebuildStructured st1 defaultSchema).1 defaultSchema).flat,
             subscribers := [] } : CMState α) sch.field .null
          = getValue st1 sch.field sch.default := by
        unfold cmGet
        rw [hgv]
        exact coalesce_self _ _ hnotnull hnotdict
      rw [hcm]
      exact ⟨hnotnull, hvalid⟩

/-- C5 (counterexample): core_config.custom_layers is a DEFAULT_SCHEMA key,
yet after construction from an empty file, get with a sentinel returns the
sentinel: the cached value is None and ConfigManager.get coalesces None to
the supplied default. -/
theorem C5_counterexample_nullable_key :
    (lookupKey s0.schemas "core_config.custom_layers").isSome = true
    ∧ initConfigManager id (Value.dict []) = some s0
    ∧ cmGet s0 "core_config.custom_layers" .null = .null :=
  ⟨rfl, s0_is_init, rfl⟩

/-- C5 witness: the amended theorem applied to the empty-file construction and
the (required, non-nullable) base model name key. -/
theorem C5_nonnullable_defaults_present_witness :
    cmGet s0 "core_config.base_model_name" Value.null ≠ Value.null :=
  (C5_nonnullable_defaults_present id (Value.dict []) s0 s0_is_init
    { field := "core_config.base_model_name", type := .str,
      default := .str "gpt2", required := true }
    (List.mem_append_left _ (List.mem_cons_self _ _)) rfl).1

/-- The except-clause of update_batch builds its result from `{ s with ... }`
updates that never touch the subscriber list, so its outcome is the same for
any subscriber list up to carrying that list along. -/
theorem exceptPath_subscribers {α : Type} (hashFn : Value → α) (s : CMState α)
    (stNow : Store) (rb : Bool) (subs : List Bool) :
    exceptPath hashFn { s with subscribers := subs } stNow rb
      = Except.map (fun p => (p.1, { p.2 with subscribers := subs }))
          (exceptPath hashFn s stNow rb) := by
  obtain ⟨sch, st, fr, hh, osubs⟩ := s
  unfold exceptPath
  dsimp only
  split
  · split
    · rfl
    · rfl
  · rfl

/-- C9: _notify_subscribers (sovl_config.py lines 582-597) wraps each callback
in its own try/except, so over any subscriber list (each entry recording
whether that callback raises) every non-raising callback is still invoked,
every raising one is logged, together they exhaust the list, and nothing
propagates (notifyLoop is total). Moreover the outcome of update_batch is
completely independent of the subscriber list: the returned flag, store and
hash are those of the same call under any other list, so a raising callback
can neither flip the result to False nor undo the applied updates. -/
theorem C9_subscriber_exceptions_contained :
    (∀ raisers : List Bool,
        (notifyLoop raisers).1 = (raisers.filter (fun b => !b)).length
        ∧ (notifyLoop raisers).2 = (raisers.filter (fun b => b)).length
        ∧ (notifyLoop raisers).1 + (notifyLoop raisers).2 = raisers.length)
    ∧ (∀ (α : Type) (hashFn : Value → α) (s : CMState α)
        (updates : List (String × Value)) (rb saveOk : Bool)
        (subs : List Bool),
        updateBatch hashFn { s with subscribers := subs } updates rb saveOk
          = Except.map (fun p => (p.1, { p.2 with subscribers := subs }))
              (updateBatch hashFn s updates rb saveOk)) := by
  constructor
  · intro raisers
    induction raisers with
    | nil => exact ⟨rfl, rfl, rfl⟩
    | cons b rest ih =>
      obtain ⟨ih1, ih2, ih3⟩ := ih
      cases b
      · refine ⟨?_, ?_, ?_⟩
        · show (notifyLoop rest).1 + 1 = _
          simp [List.filter_cons, ih1]
        · show (notifyLoop rest).2 = _
          simp [List.filter_cons, ih2]
        · show (notifyLoop rest).1 + 1 + (notifyLoop rest).2 = rest.length + 1
          omega
      · refine ⟨?_, ?_, ?_⟩
        · show (notifyLoop rest).1 = _
          simp [List.filter_cons, ih1]
        · show (notifyLoop rest).2 + 1 = _
          simp [List.filter_cons, ih2]
        · show (notifyLoop rest).1 + ((notifyLoop rest).2 + 1) = rest.length + 1
          omega
  · intro α hashFn s updates rb saveOk subs
    obtain ⟨sch, st, fr, hh, osubs⟩ := s
    unfold updateBatch
    dsimp only
    split
    · rfl
    · split
      · rfl
      · split
        · exact exceptPath_subscribers hashFn ⟨sch, st, fr, hh, osubs⟩ _ rb subs
        · split
          · exact exceptPath_subscribers hashFn ⟨sch, st, fr, hh, osubs⟩ _ rb subs
          · split
            · exact exceptPath_subscribers hashFn ⟨sch, st, fr, hh, osubs⟩ _ rb
                subs
            · rfl

/-- C4 (counterexample to the 0.7/0.3 weighting): with one seen prompt at
similarity 0 (novelty 1) and a best retrieved similarity of 1 (ignorance 0),
calculate_curiosity_score returns 0.5 * 1 + 0.5 * 0 = 1/2, while the weights
of the spec would give 7/10 * 0 + 3/10 * 1 = 3/10. -/
theorem C4_counterexample_default_weights :
    calculateCuriosityScore [0] (some 1) = 1/2
    ∧ calculateCuriosityScore [0] (some 1)
        ≠ 7/10 * calcIgnorance (some 1) + 3/10 * calcNovelty [0] := by
  constructor
  · norm_num [calculateCuriosityScore, calcNovelty, calcIgnorance, clamp01,
      min_def, max_def]
  · norm_num [calculateCuriosityScore, calcNovelty, calcIgnorance, clamp01,
      min_def, max_def]

/-- C4 (amended): calculate_curiosity_score (sovl_curiosity.py line 980)
weighs novelty and ignorance EQUALLY at 0.5 each; the 0.7/0.3 default weights
of the spec appear nowhere in the scorer. -/
theorem C4_curiosity_equal_weights (sims : List ℚ) (best : Option ℚ) :
    calculateCuriosityScore sims best
      = 1/2 * calcIgnorance best + 1/2 * calcNovelty sims := by
  unfold calculateCuriosityScore
  rw [show (0.5 : ℚ) = 1/2 by norm_num]
  ring

/-- C6 (code bug): Curiosity._compute_novelty_score calls
self._estimate_adaptive_batch_size() at sovl_curiosity.py line 367, and no
method of that name is defined anywhere in the repository, so the try block
raises AttributeError at once and the handler at line 381 returns 0.0: the
novelty score is 0 for EVERY memory and query, not
clamp(1 - max_similarity, 0, 1), and compute_curiosity returns 0 as well.
With one memory embedding at similarity 0 the intended body (noveltyBody,
the loop the try block would run) gives novelty 1, diverging from the
executed result 0; the early-exit threshold default is 0.99 as specified. -/
theorem C6_novelty_score_always_zero :
    (∀ (E : Type) (sim : E → ℚ) (threshold : ℚ) (mem : List E),
        computeNoveltyScore sim threshold mem = 0)
    ∧ (∀ (E : Type) (sim : E → ℚ) (threshold : ℚ) (mem : List E) (q : Bool),
        computeCuriosity sim threshold mem q = 0)
    ∧ noveltyBody (fun _ : Unit => 0) similarityEarlyExitDefault 32 [()] = 1
    ∧ computeNoveltyScore (fun _ : Unit => 0) similarityEarlyExitDefault [()]
        ≠ noveltyBody (fun _ : Unit => 0) similarityEarlyExitDefault 32 [()]
    ∧ similarityEarlyExitDefault = 99/100 := by
  have hz : ∀ (E : Type) (sim : E → ℚ) (threshold : ℚ) (mem : List E),
      computeNoveltyScore sim threshold mem = 0 := fun E sim th mem => rfl
  have h0 : clamp01 0 = 0 := by
    unfold clamp01
    rw [min_eq_right (by norm_num : (0:ℚ) ≤ 1), max_self]
  have h1 : noveltyBody (fun _ : Unit => 0) similarityEarlyExitDefault 32 [()]
      = 1 := by
    norm_num [noveltyBody, chunkList, chunkGo, noveltyFold, chunkMax, clamp01,
      similarityEarlyExitDefault, List.take, List.drop, min_def, max_def]
  refine ⟨hz, ?_, h1, ?_, ?_⟩
  · intro E sim th mem q
    unfold computeCuriosity
    rw [hz E sim th mem, ite_self]
    exact h0
  · rw [hz Unit (fun _ => 0) similarityEarlyExitDefault [()], h1]
    norm_num
  · norm_num [similarityEarlyExitDefault]

/-- decay_pressure leaves the configuration constants and the eruption stamp
untouched. -/
theorem decayPressure_fields (s : PressureState) (now : ℚ) :
    (decayPressure s now).minPressure = s.minPressure
    ∧ (decayPressure s now).maxPressure = s.maxPressure
    ∧ (decayPressure s now).cooldown = s.cooldown
    ∧ (decayPressure s now).lastEruption = s.lastEruption :=
  ⟨rfl, rfl, rfl, rfl⟩

/-- check_eruption never changes the cooldown constant. -/
theorem checkEruption_cooldown (s : PressureState) (now th dr : ℚ) :
    (checkEruption s now th dr).2.cooldown = s.cooldown := by
  simp only [checkEruption]
  split
  · rfl
  · rfl

/-- An eruption certifies that the decayed pressure reached the threshold and
that more than cooldown elapsed since the previous eruption. -/
theorem checkEruption_true_cond (s : PressureState) (now th dr : ℚ)
    (h : (checkEruption s now th dr).1 = true) :
    th ≤ (decayPressure s now).current ∧ s.cooldown < now - s.lastEruption := by
  simp only [checkEruption] at h
  split at h
  · rename_i hc
    exact ⟨hc.1, hc.2⟩
  · exact Bool.noConfusion h

/-- On eruption the pressure drops by the drop amount (floored at
min_pressure) and the eruption time is stamped. -/
theorem checkEruption_true_effect (s : PressureState) (now th dr : ℚ)
    (h : (checkEruption s now th dr).1 = true) :
    (checkEruption s now th dr).2.current
      = max s.minPressure ((decayPressure s now).current - dr)
    ∧ (checkEruption s now th dr).2.lastEruption = now := by
  simp only [checkEruption] at h ⊢
  split at h
  · rename_i hc
    rw [if_pos hc]
    exact ⟨rfl, rfl⟩
  · exact Bool.noConfusion h

/-- Without an eruption, check_eruption returns exactly the decayed state. -/
theorem checkEruption_false_effect (s : PressureState) (now th dr : ℚ)
    (h : (checkEruption s now th dr).1 = false) :
    (checkEruption s now th dr).2 = decayPressure s now := by
  simp only [checkEruption] at h ⊢
  split at h
  · exact Bool.noConfusion h
  · rename_i hc
    rw [if_neg hc]

/-- With a nonnegative cooldown, the stamped eruption time never moves
backwards across a check_eruption call. -/
theorem checkEruption_lastEruption_ge (s : PressureState) (now th dr : ℚ)
    (hcool : 0 ≤ s.cooldown) :
    s.lastEruption ≤ (checkEruption s now th dr).2.lastEruption := by
  cases hb : (checkEruption s now th dr).1 with
  | true =>
    rw [(checkEruption_true_effect s now th dr hb).2]
    have h2 := (checkEruption_true_cond s now th dr hb).2
    linarith
  | false =>
    rw [checkEruption_false_effect s now th dr hb]
    exact le_refl s.lastEruption

/-- Any eruption in a run of check_eruption calls happens more than cooldown
after the eruption stamp the run started from. -/
theorem runEruptions_head_spacing :
    ∀ (calls : List ECall) (s : PressureState), 0 ≤ s.cooldown →
    ∀ (k : ℕ) (hk : k < (runEruptions s calls).1.length) (hk2 : k < calls.length),
      (runEruptions s calls).1.get ⟨k, hk⟩ = true →
      s.cooldown < (calls.get ⟨k, hk2⟩).time - s.lastEruption := by
  intro calls
  induction calls with
  | nil =>
    intro s hc k hk hk2 hget
    exact absurd hk2 (Nat.not_lt_zero k)
  | cons c rest ih =>
    intro s hc k hk hk2 hget
    cases k with
    | zero =>
      have hget0 : (checkEruption s c.time c.threshold c.dropAmt).1 = true :=
        hget
      exact (checkEruption_true_cond s c.time c.threshold c.dropAmt hget0).2
    | succ k =>
      have hk2x : k < rest.length := Nat.lt_of_succ_lt_succ hk2
      have hkx : k < (runEruptions
          (checkEruption s c.time c.threshold c.dropAmt).2 rest).1.length :=
        Nat.lt_of_succ_lt_succ hk
      have hgetx : (runEruptions
          (checkEruption s c.time c.threshold c.dropAmt).2 rest).1.get
            ⟨k, hkx⟩ = true := hget
      have hcx : 0 ≤ (checkEruption s c.time c.threshold c.dropAmt).2.cooldown := by
        rw [checkEruption_cooldown]
        exact hc
      have h := ih (checkEruption s c.time c.threshold c.dropAmt).2 hcx k hkx
        hk2x hgetx
      rw [checkEruption_cooldown] at h
      have hle := checkEruption_lastEruption_ge s c.time c.threshold c.dropAmt
        hc
      have hgt : (c :: rest).get ⟨k + 1, hk2⟩ = rest.get ⟨k, hk2x⟩ := rfl
      rw [hgt]
      linarith

/-- Two eruptions in one run of check_eruption calls are more than cooldown
apart, whatever happens in between. -/
theorem runEruptions_spacing :
    ∀ (calls : List ECall) (s : PressureState), 0 ≤ s.cooldown →
    ∀ (i j : ℕ), i < j →
    ∀ (hi : i < (runEruptions s calls).1.length)
      (hj : j < (runEruptions s calls).1.length)
      (hi2 : i < calls.length) (hj2 : j < calls.length),
      (runEruptions s calls).1.get ⟨i, hi⟩ = true →
      (runEruptions s calls).1.get ⟨j, hj⟩ = true →
      s.cooldown < (calls.get ⟨j, hj2⟩).time - (calls.get ⟨i, hi2⟩).time := by
  intro calls
  induction calls with
  | nil =>
    intro s hc i j hij hi hj hi2 hj2 hgi hgj
    exact absurd hi2 (Nat.not_lt_zero i)
  | cons c rest ih =>
    intro s hc i j hij hi hj hi2 hj2 hgi hgj
    cases i with
    | zero =>
      cases j with
      | zero => exact absurd hij (lt_irrefl 0)
      | succ j =>
        have hgi0 : (checkEruption s c.time c.threshold c.dropAmt).1 = true :=
          hgi
        have heff :=
          (checkEruption_true_effect s c.time c.threshold c.dropAmt hgi0).2
        have hj2x : j < rest.length := Nat.lt_of_succ_lt_succ hj2
        have hjx : j < (runEruptions
            (checkEruption s c.time c.threshold c.dropAmt).2 rest).1.length :=
          Nat.lt_of_succ_lt_succ hj
        have hgjx : (runEruptions
            (checkEruption s c.time c.threshold c.dropAmt).2 rest).1.get
              ⟨j, hjx⟩ = true := hgj
        have hcx : 0 ≤ (checkEruption s c.time c.threshold
            c.dropAmt).2.cooldown := by
          rw [checkEruption_cooldown]
          exact hc
        have h := runEruptions_head_spacing rest
          (checkEruption s c.time c.threshold c.dropAmt).2 hcx j hjx hj2x hgjx
        rw [checkEruption_cooldown, heff] at h
        have hgt : (c :: rest).get ⟨j + 1, hj2⟩ = rest.get ⟨j, hj2x⟩ := rfl
        have hg0 : (c :: rest).get ⟨0, hi2⟩ = c := rfl
        rw [hgt, hg0]
        exact h
    | succ i =>
      cases j with
      | zero => exact absurd hij (Nat.not_lt_zero (i + 1))
      | succ j =>
        have hcx : 0 ≤ (checkEruption s c.time c.threshold
            c.dropAmt).2.cooldown := by
          rw [checkEruption_cooldown]
          exact hc
        have h := ih (checkEruption s c.time c.threshold c.dropAmt).2 hcx i j
          (Nat.lt_of_succ_lt_succ hij)
          (Nat.lt_of_succ_lt_succ hi) (Nat.lt_of_succ_lt_succ hj)
          (Nat.lt_of_succ_lt_succ hi2) (Nat.lt_of_succ_lt_succ hj2) hgi hgj
        rw [checkEruption_cooldown] at h
        exact h

/-- C7: check_eruption first decays for the elapsed time, then erupts iff the
decayed pressure reached the threshold and more than cooldown passed since
the last eruption; an eruption drops the pressure by the drop amount (floored
at min_pressure) and stamps the eruption time, while a non-eruption returns
exactly the decayed state. After decay the pressure stays in
[min_pressure, max_pressure] whenever it started there, the decay rate is
nonnegative and the clock does not run backwards. Over any sequence of
check_eruption calls, two calls that both erupt are more than cooldown
apart. -/
theorem C7_check_eruption_contract (s : PressureState) (now th dr : ℚ)
    (hmin0 : 0 ≤ s.minPressure) (hminc : s.minPressure ≤ s.current)
    (hcmax : s.current ≤ s.maxPressure) (hdec : 0 ≤ s.decayRate)
    (hlu : s.lastUpdate ≤ now) (hcool : 0 ≤ s.cooldown) :
    ((checkEruption s now th dr).1 = true ↔
        th ≤ (decayPressure s now).current
          ∧ s.cooldown < now - s.lastEruption)
    ∧ ((checkEruption s now th dr).1 = true →
        (checkEruption s now th dr).2.current
            = max s.minPressure ((decayPressure s now).current - dr)
          ∧ (checkEruption s now th dr).2.lastEruption = now)
    ∧ ((checkEruption s now th dr).1 = false →
        (checkEruption s now th dr).2 = decayPressure s now)
    ∧ (s.minPressure ≤ (decayPressure s now).current
        ∧ (decayPressure s now).current ≤ s.maxPressure)
    ∧ (∀ (calls : List ECall) (i j : ℕ), i < j →
        ∀ (hi : i < (runEruptions s calls).1.length)
          (hj : j < (runEruptions s calls).1.length)
          (hi2 : i < calls.length) (hj2 : j < calls.length),
          (runEruptions s calls).1.get ⟨i, hi⟩ = true →
          (runEruptions s calls).1.get ⟨j, hj⟩ = true →
          s.cooldown < (calls.get ⟨j, hj2⟩).time
            - (calls.get ⟨i, hi2⟩).time) := by
  refine ⟨?_, checkEruption_true_effect s now th dr,
    checkEruption_false_effect s now th dr, ⟨le_max_left _ _, ?_⟩,
    fun calls i j hij hi hj hi2 hj2 =>
      runEruptions_spacing calls s hcool i j hij hi hj hi2 hj2⟩
  · constructor
    · exact checkEruption_true_cond s now th dr
    · intro h
      simp only [checkEruption]
      rw [if_pos (show th ≤ (decayPressure s now).current
          ∧ s.cooldown < now - (decayPressure s now).lastEruption from h)]
  · show max s.minPressure
        (s.current * (1 - s.decayRate * (now - s.lastUpdate))) ≤ s.maxPressure
    apply max_le (le_trans hminc hcmax)
    have hf : 0 ≤ s.decayRate * (now - s.lastUpdate) :=
      mul_nonneg hdec (by linarith)
    have hc0 : 0 ≤ s.current := le_trans hmin0 hminc
    nlinarith [mul_nonneg hc0 hf]

/-- The pressure state of the seed scenario: bounds [0, 1], no decay, cooldown
30 seconds, current pressure 0.75, last eruption far in the past. -/
def pC7 : PressureState :=
  { minPressure := 0, maxPressure := 1, decayRate := 0, cooldown := 30,
    current := 3/4, lastUpdate := 0, lastEruption := -100 }

/-- C7 witness: the contract applied at the seed scenario (threshold 0.7,
drop 0.3) at time 0. -/
theorem C7_check_eruption_contract_witness :
    ((0:ℚ) ≤ pC7.minPressure ∧ pC7.minPressure ≤ pC7.current
      ∧ pC7.current ≤ pC7.maxPressure ∧ (0:ℚ) ≤ pC7.decayRate
      ∧ pC7.lastUpdate ≤ (0:ℚ) ∧ (0:ℚ) ≤ pC7.cooldown)
    ∧ (pC7.minPressure ≤ (decayPressure pC7 0).current
        ∧ (decayPressure pC7 0).current ≤ pC7.maxPressure) :=
  ⟨⟨by norm_num [pC7], by norm_num [pC7], by norm_num [pC7],
    by norm_num [pC7], by norm_num [pC7], by norm_num [pC7]⟩,
   (C7_check_eruption_contract pC7 0 (7/10) (3/10) (by norm_num [pC7])
     (by norm_num [pC7]) (by norm_num [pC7]) (by norm_num [pC7])
     (by norm_num [pC7]) (by norm_num [pC7])).2.2.2.1⟩

/-- C8: update_temperament accepts any confidence and lifecycle stage in
[0, 1] (and any curiosity pressure in [0, 1] when supplied) and, whatever the
prior state, noise sample and clock, the resulting temperament score lies in
[-1, 1]: _apply_smoothing ends with score = max(-1.0, min(1.0, score)). -/
theorem C8_temperament_score_bounded (cfg : TempConfig) (st : TempState)
    (confidence stage : ℚ) (dtOpt : Option ℚ) (cp : Option ℚ)
    (noise now : ℚ)
    (hc0 : 0 ≤ confidence) (hc1 : confidence ≤ 1)
    (hs0 : 0 ≤ stage) (hs1 : stage ≤ 1)
    (hcp : ∀ c, cp = some c → 0 ≤ c ∧ c ≤ 1) :
    ∃ st2, updateTemperament cfg st confidence stage dtOpt cp noise now
        = some st2
      ∧ -1 ≤ st2.score ∧ st2.score ≤ 1 := by
  unfold updateTemperament
  rw [if_neg (not_not_intro ⟨hc0, hc1⟩), if_neg (not_not_intro ⟨hs0, hs1⟩)]
  have hb : cpOutOfRange cp = false := by
    cases cp with
    | none => rfl
    | some c => exact decide_eq_false (not_not_intro (hcp c rfl))
  rw [hb, if_neg Bool.false_ne_true]
  refine ⟨_, rfl, ?_, ?_⟩
  · exact le_max_left _ _
  · exact max_le (by norm_num) (min_le_left _ _)

/-- A concrete temperament configuration within the documented ranges. -/
def cfgC8 : TempConfig :=
  { sluggishThreshold := 1/2, curiosityBoost := 3/10,
    confFeedbackStrength := 1/2, tempSmoothingFactor := 1/2,
    decayRate := 1/10, earlyLifecycle := 1/5, midLifecycle := 7/10,
    historyMaxlen := 5, confidenceHistoryMaxlen := 5 }

/-- A fresh temperament state. -/
def stC8 : TempState :=
  { score := 0, history := [], confidenceHistory := [],
    sleepConfidenceSum := 0, sleepConfidenceCount := 0, lastUpdate := 0 }

/-- C8 witness: the bound applied at confidence 1/2, stage 0, a supplied
elapsed time of 1 and no curiosity pressure. -/
theorem C8_temperament_score_bounded_witness :
    ((0:ℚ) ≤ 1/2 ∧ (1/2:ℚ) ≤ 1 ∧ (0:ℚ) ≤ 0 ∧ (0:ℚ) ≤ 1)
    ∧ (∃ st2, updateTemperament cfgC8 stC8 (1/2) 0 (some 1) none 0 1
          = some st2
        ∧ -1 ≤ st2.score ∧ st2.score ≤ 1) :=
  ⟨⟨by norm_num, by norm_num, by norm_num, by norm_num⟩,
   C8_temperament_score_bounded cfgC8 stC8 (1/2) 0 (some 1) none 0 1
     (by norm_num) (by norm_num) (by norm_num) (by norm_num)
     (fun c hc => nomatch hc)⟩

end Spec2Proof
